import Mathlib

/-!
Verification development for a Game Boy (DMG) emulator core.

The C++ sources are shallowly embedded: every stateful component becomes a
Lean structure together with pure state-transition functions; machine bytes
and counters become `Nat` (taken modulo 2^8 / 2^16 exactly where the C++
types wrap); IEEE float samples become `ℚ` (the mixer's final clamping step
makes the range properties rounding-insensitive); host callbacks become
ghost event lists appended where the source invokes them.

Components embedded from the source:
  * `Video` (src/video/video.cc) : the PPU mode state machine, scanline
    rendering gates, and sprite priority decision.
  * `Audio` (src/audio/audio.cc) : the four sound channels, the mixer,
    register file decode, and the sample loop.
  * `Gameboy` (src/gameboy.cc)   : the orchestrator tick.

The CPU and Timer are not part of the embedded sources; the orchestrator
treats the CPU as an abstract step returning a cycle count, and the Timer
is modelled from the specification.
-/

/-! ## Bitwise helpers (src/util/bitwise.h) -/

/-- `bitwise::check_bit(value, bit)`: test a single bit. -/
def check_bit (v : Nat) (bit : Nat) : Bool := v.testBit bit

/-- `bitwise::bit_value(value, bit)`: the bit as 0 or 1. -/
def bit_value (v : Nat) (bit : Nat) : Nat := (v >>> bit) &&& 1

/-- `bitwise::set_bit_to(value, bit, condition)`: set or clear a single bit. -/
def set_bit_to (v : Nat) (bit : Nat) (condition : Bool) : Nat :=
  if condition then v ||| 1 <<< bit
  else if v.testBit bit then v ^^^ 1 <<< bit else v

/-! ## PPU (class Video, src/video/video.cc)

Timing constants from src/video/video.h. -/

def CLOCKS_PER_HBLANK : Nat := 204
def CLOCKS_PER_SCANLINE_OAM : Nat := 80
def CLOCKS_PER_SCANLINE_VRAM : Nat := 172
def CLOCKS_PER_SCANLINE : Nat :=
  CLOCKS_PER_SCANLINE_OAM + CLOCKS_PER_SCANLINE_VRAM + CLOCKS_PER_HBLANK
def CLOCKS_PER_VBLANK : Nat := 4560
def SCANLINES_PER_FRAME : Nat := 144
def CLOCKS_PER_FRAME : Nat :=
  CLOCKS_PER_SCANLINE * SCANLINES_PER_FRAME + CLOCKS_PER_VBLANK

/-- `enum class VideoMode` (video.h). -/
inductive VideoMode
  | ACCESS_OAM
  | ACCESS_VRAM
  | HBLANK
  | VBLANK
deriving DecidableEq

/-- The state of `class Video` that `Video::tick` reads and writes, plus
ghost fields recording the rendering and callback effects.  The frame
buffer's pixel contents are modelled separately (per pixel) for the sprite
priority analysis; here `drawn_bg` / `drawn_window` record which scanlines
the background/window renderers were invoked on, `sprite_passes` counts
`write_sprites` passes that actually drew, and `frames` counts
`draw()` (vblank-callback) invocations.  `interrupt_flag` mirrors
`gb.cpu.interrupt_flag`, written through the `Gameboy` back-reference. -/
structure VideoState where
  current_mode : VideoMode
  cycle_counter : Nat
  line : Nat
  ly_compare : Nat
  lcd_status : Nat
  control_byte : Nat
  interrupt_flag : Nat
  debug_disable_background : Bool
  debug_disable_window : Bool
  debug_disable_sprites : Bool
  drawn_bg : List Nat
  drawn_window : List Nat
  sprite_passes : Nat
  frames : Nat
deriving DecidableEq

/-- `Video::display_enabled`. -/
def VideoState.display_enabled (s : VideoState) : Bool := check_bit s.control_byte 7
/-- `Video::window_enabled`. -/
def VideoState.window_enabled (s : VideoState) : Bool := check_bit s.control_byte 5
/-- `Video::sprites_enabled`. -/
def VideoState.sprites_enabled (s : VideoState) : Bool := check_bit s.control_byte 1
/-- `Video::bg_enabled`. -/
def VideoState.bg_enabled (s : VideoState) : Bool := check_bit s.control_byte 0

/-- `Video::write_scanline`: renders the background and window rows of
`current_line` into the frame buffer.  The pixel writes only touch the
frame buffer, recorded here by the ghost lists. -/
def VideoState.write_scanline (s : VideoState) (current_line : Nat) : VideoState :=
  if !s.display_enabled then s
  else
    let s1 := if s.bg_enabled && !s.debug_disable_background then
        { s with drawn_bg := s.drawn_bg ++ [current_line] } else s
    if s1.window_enabled && !s1.debug_disable_window then
      { s1 with drawn_window := s1.drawn_window ++ [current_line] } else s1

/-- `Video::write_sprites`: draws the 40 OAM sprites into the frame buffer
(frame-buffer writes only; the pass is recorded by the ghost counter). -/
def VideoState.write_sprites (s : VideoState) : VideoState :=
  if !s.sprites_enabled || s.debug_disable_sprites then s
  else { s with sprite_passes := s.sprite_passes + 1 }

/-- `Video::tick(Cycles cycles)`: the PPU mode state machine. -/
def VideoState.tick (s : VideoState) (cycles : Nat) : VideoState :=
  let c := s.cycle_counter + cycles
  match s.current_mode with
  | VideoMode.ACCESS_OAM =>
    if c ≥ CLOCKS_PER_SCANLINE_OAM then
      { s with cycle_counter := c % CLOCKS_PER_SCANLINE_OAM,
               lcd_status := set_bit_to (set_bit_to s.lcd_status 1 true) 0 true,
               current_mode := VideoMode.ACCESS_VRAM }
    else { s with cycle_counter := c }
  | VideoMode.ACCESS_VRAM =>
    if c ≥ CLOCKS_PER_SCANLINE_VRAM then
      let st0 := s.lcd_status
      let hblank_interrupt := check_bit st0 3
      let if1 := if hblank_interrupt then set_bit_to s.interrupt_flag 1 true
                 else s.interrupt_flag
      let ly_coincidence_interrupt := check_bit st0 6
      let ly_coincidence := s.ly_compare = s.line
      let if2 := if ly_coincidence_interrupt && ly_coincidence then set_bit_to if1 1 true
                 else if1
      let st1 := set_bit_to st0 2 ly_coincidence
      let st2 := set_bit_to (set_bit_to st1 1 false) 0 false
      { s with cycle_counter := c % CLOCKS_PER_SCANLINE_VRAM,
               current_mode := VideoMode.HBLANK,
               interrupt_flag := if2,
               lcd_status := st2 }
    else { s with cycle_counter := c }
  | VideoMode.HBLANK =>
    if c ≥ CLOCKS_PER_HBLANK then
      let s1 := s.write_scanline s.line
      let newline := (s1.line + 1) % 256
      let cc := c % CLOCKS_PER_HBLANK
      if newline = 144 then
        { s1 with line := newline, cycle_counter := cc,
                  current_mode := VideoMode.VBLANK,
                  lcd_status := set_bit_to (set_bit_to s1.lcd_status 1 false) 0 true,
                  interrupt_flag := set_bit_to s1.interrupt_flag 0 true }
      else
        { s1 with line := newline, cycle_counter := cc,
                  lcd_status := set_bit_to (set_bit_to s1.lcd_status 1 true) 0 false,
                  current_mode := VideoMode.ACCESS_OAM }
    else { s with cycle_counter := c }
  | VideoMode.VBLANK =>
    if c ≥ CLOCKS_PER_SCANLINE then
      let newline := (s.line + 1) % 256
      let cc := c % CLOCKS_PER_SCANLINE
      if newline = 154 then
        let s1 := { s with line := newline, cycle_counter := cc }.write_sprites
        { s1 with frames := s1.frames + 1,
                  line := 0,
                  current_mode := VideoMode.ACCESS_OAM,
                  lcd_status := set_bit_to (set_bit_to s1.lcd_status 1 true) 0 false }
      else { s with line := newline, cycle_counter := cc }
    else { s with cycle_counter := c }

/-- The `Video` state at power-on: the constructor leaves
`current_mode = ACCESS_OAM` and `cycle_counter = 0`; the byte registers
start at 0 and the boot sequence sets LCDC to 0x91. -/
def video_reset : VideoState :=
  { current_mode := VideoMode.ACCESS_OAM
    cycle_counter := 0
    line := 0
    ly_compare := 0
    lcd_status := 0
    control_byte := 0x91
    interrupt_flag := 0
    debug_disable_background := false
    debug_disable_window := false
    debug_disable_sprites := false
    drawn_bg := []
    drawn_window := []
    sprite_passes := 0
    frames := 0 }

/-! ### The mode machine, projected

`Video::tick` only ever reads and writes the fields below (the remaining
fields of `VideoState` are the rendering gates and ghost effect records).
Projecting onto them lets the whole-frame computation below run on a small
state. -/

/-- The registers of `Video` that drive the mode machine. -/
structure MachineState where
  current_mode : VideoMode
  cycle_counter : Nat
  line : Nat
  ly_compare : Nat
  lcd_status : Nat
  interrupt_flag : Nat
  frames : Nat
deriving DecidableEq

/-- Projection of the full `Video` state onto the mode-machine registers. -/
def VideoState.proj (s : VideoState) : MachineState :=
  { current_mode := s.current_mode
    cycle_counter := s.cycle_counter
    line := s.line
    ly_compare := s.ly_compare
    lcd_status := s.lcd_status
    interrupt_flag := s.interrupt_flag
    frames := s.frames }

/-- `Video::tick` restricted to the mode-machine registers (same branches
and updates as `VideoState.tick`, with the frame-buffer effects dropped). -/
def MachineState.tick (s : MachineState) (cycles : Nat) : MachineState :=
  let c := s.cycle_counter + cycles
  match s.current_mode with
  | VideoMode.ACCESS_OAM =>
    if c ≥ CLOCKS_PER_SCANLINE_OAM then
      { s with cycle_counter := c % CLOCKS_PER_SCANLINE_OAM,
               lcd_status := set_bit_to (set_bit_to s.lcd_status 1 true) 0 true,
               current_mode := VideoMode.ACCESS_VRAM }
    else { s with cycle_counter := c }
  | VideoMode.ACCESS_VRAM =>
    if c ≥ CLOCKS_PER_SCANLINE_VRAM then
      let st0 := s.lcd_status
      let if1 := if check_bit st0 3 then set_bit_to s.interrupt_flag 1 true
                 else s.interrupt_flag
      let ly_coincidence := s.ly_compare = s.line
      let if2 := if check_bit st0 6 && ly_coincidence then set_bit_to if1 1 true
                 else if1
      let st1 := set_bit_to st0 2 ly_coincidence
      let st2 := set_bit_to (set_bit_to st1 1 false) 0 false
      { s with cycle_counter := c % CLOCKS_PER_SCANLINE_VRAM,
               current_mode := VideoMode.HBLANK,
               interrupt_flag := if2,
               lcd_status := st2 }
    else { s with cycle_counter := c }
  | VideoMode.HBLANK =>
    if c ≥ CLOCKS_PER_HBLANK then
      let newline := (s.line + 1) % 256
      let cc := c % CLOCKS_PER_HBLANK
      if newline = 144 then
        { s with line := newline, cycle_counter := cc,
                 current_mode := VideoMode.VBLANK,
                 lcd_status := set_bit_to (set_bit_to s.lcd_status 1 false) 0 true,
                 interrupt_flag := set_bit_to s.interrupt_flag 0 true }
      else
        { s with line := newline, cycle_counter := cc,
                 lcd_status := set_bit_to (set_bit_to s.lcd_status 1 true) 0 false,
                 current_mode := VideoMode.ACCESS_OAM }
    else { s with cycle_counter := c }
  | VideoMode.VBLANK =>
    if c ≥ CLOCKS_PER_SCANLINE then
      let newline := (s.line + 1) % 256
      let cc := c % CLOCKS_PER_SCANLINE
      if newline = 154 then
        { s with frames := s.frames + 1,
                 line := 0,
                 cycle_counter := cc,
                 current_mode := VideoMode.ACCESS_OAM,
                 lcd_status := set_bit_to (set_bit_to s.lcd_status 1 true) 0 false }
      else { s with line := newline, cycle_counter := cc }
    else { s with cycle_counter := c }


/-! ### One rendered frame, four T-states at a time

The orchestrator feeds the PPU the cycle counts returned by CPU
instructions, which are always multiples of 4 T-states; driving the PPU in
4 T-state steps is the finest-grained tick sequence the orchestrator can
produce.  `run_ticks k` advances the PPU by `k` such ticks (4·k T-states). -/

/-- `k` successive `Video::tick(4)` calls. -/
def run_ticks : Nat → VideoState → VideoState
  | 0, s => s
  | k + 1, s => run_ticks k (s.tick 4)

/-- `k` successive projected ticks. -/
def machine_run : Nat → MachineState → MachineState
  | 0, s => s
  | k + 1, s => machine_run k (s.tick 4)

/-- The mode the specification schedules at T-state `t` of a frame:
per scanline 80 T-states of OAM-scan, then 172 of VRAM-access, then 204 of
HBlank; after the 144 visible scanlines, VBlank. -/
def expected_mode (t : Nat) : VideoMode :=
  if t / 456 < 144 then
    if t % 456 < 80 then VideoMode.ACCESS_OAM
    else if t % 456 < 252 then VideoMode.ACCESS_VRAM
    else VideoMode.HBLANK
  else VideoMode.VBLANK

/-- The scanline LY the specification schedules at T-state `t` of a frame. -/
def expected_line (t : Nat) : Nat := t / 456

/-- The mode cycle counter (T-states already spent inside the current mode)
at T-state `t` of a frame. -/
def expected_counter (t : Nat) : Nat :=
  if t / 456 < 144 then
    if t % 456 < 80 then t % 456
    else if t % 456 < 252 then t % 456 - 80
    else t % 456 - 252
  else t % 456

/-- The STAT byte the embedded mode machine holds at T-state `t` of the
first frame (bits 1..0 track the mode with the one-transition lag of the
source, bit 2 is the LY=LYC coincidence computed at each VRAM-to-HBlank
transition with LYC = 0). -/
def expected_status (t : Nat) : Nat :=
  if t / 456 < 144 then
    if t % 456 < 80 then (if t / 456 = 0 then 0 else if t / 456 = 1 then 6 else 2)
    else if t % 456 < 252 then (if t / 456 = 0 then 3 else if t / 456 = 1 then 7 else 3)
    else (if t / 456 = 0 then 4 else 0)
  else 1

/-- The machine state scheduled at T-state `t` of the first frame
(`t = 70224` is the start-of-frame state again, with the VBlank interrupt
bit latched and one frame emitted). -/
def mstate_of (t : Nat) : MachineState :=
  if t < 70224 then
    { current_mode := expected_mode t, cycle_counter := expected_counter t,
      line := expected_line t, ly_compare := 0, lcd_status := expected_status t,
      interrupt_flag := if 65664 ≤ t then 1 else 0, frames := 0 }
  else
    { current_mode := VideoMode.ACCESS_OAM, cycle_counter := 0, line := 0,
      ly_compare := 0, lcd_status := 2, interrupt_flag := 1, frames := 1 }

/-- One tick of the schedule: ticking the scheduled state at T-state
`4·k` by 4 T-states lands exactly on the scheduled state at `4·k + 4`. -/
def step_ok (k : Nat) : Bool := (mstate_of (4 * k)).tick 4 == mstate_of (4 * k + 4)

/-- The tick indices (of 4 T-states each) at which the first frame's mode
machine makes a transition: per visible scanline `l`, ticks `114·l + 19`
(OAM to VRAM, T-state 456·l + 76), `114·l + 62` (VRAM to HBlank) and
`114·l + 113` (end of HBlank); per VBlank scanline only the end-of-line
tick `114·l + 113`. -/
def boundary_ticks : List Nat :=
  (List.range 154).flatMap (fun l =>
    if l < 144 then [114 * l + 19, 114 * l + 62, 114 * l + 113]
    else [114 * l + 113])

/-! ## APU (class Audio and the four channels, src/audio/audio.cc)

Float samples are modelled as `ℚ`.  Channel `tick`/`get_sample` and the
register setters are embedded function by function; the `Audio` aggregate
carries ghost fields (`samples_mixed`, `flushes`) recording how many
samples the mixer produced and which buffer pairs were handed to the host
audio callback. -/

/-- The duty patterns table shared by the two square channels. -/
def duty_patterns : List (List Bool) :=
  [[false, false, false, false, false, false, false, true],
   [false, false, false, false, false, false, true, true],
   [false, false, false, false, true, true, true, true],
   [true, true, true, true, true, true, false, false]]

/-- `class ToneSweepChannel` (channel 1), data members from audio.h
(including those inherited from `SoundChannel`). -/
structure ToneSweepChannel where
  enabled : Bool
  volume : Nat
  length_counter : Nat
  length_enabled : Bool
  sweep_time : Nat
  sweep_decrease : Bool
  sweep_shift : Nat
  duty_pattern : Nat
  duty_position : Nat
  envelope_initial_volume : Nat
  envelope_increase : Bool
  envelope_sweep_pace : Nat
  frequency : Nat
  timer : Nat
deriving DecidableEq

/-- `ToneSweepChannel::tick`. -/
def ToneSweepChannel.tick (c : ToneSweepChannel) (cycles : Nat) : ToneSweepChannel :=
  if !c.enabled then c
  else if c.timer > cycles then { c with timer := c.timer - cycles }
  else
    let freq_val := if c.frequency > 2047 then 2047 else c.frequency
    let t0 := (2048 - freq_val) * 4
    let t1 := if t0 = 0 then 8192 * 4 else t0
    { c with duty_position := (c.duty_position + 1) % 8, timer := t1 }

/-- `ToneSweepChannel::get_sample`. -/
def ToneSweepChannel.get_sample (c : ToneSweepChannel) : ℚ :=
  if !c.enabled then 0
  else
    let high := (duty_patterns.getD c.duty_pattern []).getD c.duty_position false
    if high then (c.volume : ℚ) / 15 else -((c.volume : ℚ) / 15)

/-- `ToneSweepChannel::set_sweep_register` (NR10). -/
def ToneSweepChannel.set_sweep_register (c : ToneSweepChannel) (value : Nat) : ToneSweepChannel :=
  { c with sweep_time := (value >>> 4) &&& 0x07,
           sweep_decrease := check_bit value 3,
           sweep_shift := value &&& 0x07 }

/-- `ToneSweepChannel::set_length_duty_register` (NR11). -/
def ToneSweepChannel.set_length_duty_register (c : ToneSweepChannel) (value : Nat) : ToneSweepChannel :=
  { c with duty_pattern := (value >>> 6) &&& 0x03,
           length_counter := 64 - (value &&& 0x3F) }

/-- `ToneSweepChannel::set_volume_envelope_register` (NR12). -/
def ToneSweepChannel.set_volume_envelope_register (c : ToneSweepChannel) (value : Nat) : ToneSweepChannel :=
  let iv := (value >>> 4) &&& 0x0F
  { c with envelope_initial_volume := iv,
           envelope_increase := check_bit value 3,
           envelope_sweep_pace := value &&& 0x07,
           volume := iv }

/-- `ToneSweepChannel::set_frequency_lo_register` (NR13). -/
def ToneSweepChannel.set_frequency_lo_register (c : ToneSweepChannel) (value : Nat) : ToneSweepChannel :=
  { c with frequency := (c.frequency &&& 0x700) ||| value }

/-- `ToneSweepChannel::set_frequency_hi_register` (NR14). -/
def ToneSweepChannel.set_frequency_hi_register (c : ToneSweepChannel) (value : Nat) : ToneSweepChannel :=
  let c1 := { c with frequency := (c.frequency &&& 0xFF) ||| ((value &&& 0x07) <<< 8) }
  let c2 :=
    if check_bit value 7 then
      let freq_val := if c1.frequency > 2047 then 2047 else c1.frequency
      let t0 := (2048 - freq_val) * 4
      let t1 := if t0 = 0 then 8192 * 4 else t0
      { c1 with enabled := true,
                timer := t1,
                length_counter := if c1.length_counter = 0 then 64 else c1.length_counter,
                duty_position := 0,
                volume := c1.envelope_initial_volume }
    else c1
  { c2 with length_enabled := check_bit value 6 }

/-- `class ToneChannel` (channel 2). -/
structure ToneChannel where
  enabled : Bool
  volume : Nat
  length_counter : Nat
  length_enabled : Bool
  duty_pattern : Nat
  duty_position : Nat
  envelope_initial_volume : Nat
  envelope_increase : Bool
  envelope_sweep_pace : Nat
  frequency : Nat
  timer : Nat
deriving DecidableEq

/-- `ToneChannel::tick`. -/
def ToneChannel.tick (c : ToneChannel) (cycles : Nat) : ToneChannel :=
  if !c.enabled then c
  else if c.timer > cycles then { c with timer := c.timer - cycles }
  else
    let freq_val := if c.frequency > 2047 then 2047 else c.frequency
    let t0 := (2048 - freq_val) * 4
    let t1 := if t0 = 0 then 8192 * 4 else t0
    { c with duty_position := (c.duty_position + 1) % 8, timer := t1 }

/-- `ToneChannel::get_sample`. -/
def ToneChannel.get_sample (c : ToneChannel) : ℚ :=
  if !c.enabled then 0
  else
    let high := (duty_patterns.getD c.duty_pattern []).getD c.duty_position false
    if high then (c.volume : ℚ) / 15 else -((c.volume : ℚ) / 15)

/-- `ToneChannel::set_length_duty_register` (NR21). -/
def ToneChannel.set_length_duty_register (c : ToneChannel) (value : Nat) : ToneChannel :=
  { c with duty_pattern := (value >>> 6) &&& 0x03,
           length_counter := 64 - (value &&& 0x3F) }

/-- `ToneChannel::set_volume_envelope_register` (NR22). -/
def ToneChannel.set_volume_envelope_register (c : ToneChannel) (value : Nat) : ToneChannel :=
  let iv := (value >>> 4) &&& 0x0F
  { c with envelope_initial_volume := iv,
           envelope_increase := check_bit value 3,
           envelope_sweep_pace := value &&& 0x07,
           volume := iv }

/-- `ToneChannel::set_frequency_lo_register` (NR23). -/
def ToneChannel.set_frequency_lo_register (c : ToneChannel) (value : Nat) : ToneChannel :=
  { c with frequency := (c.frequency &&& 0x700) ||| value }

/-- `ToneChannel::set_frequency_hi_register` (NR24). -/
def ToneChannel.set_frequency_hi_register (c : ToneChannel) (value : Nat) : ToneChannel :=
  let c1 := { c with frequency := (c.frequency &&& 0xFF) ||| ((value &&& 0x07) <<< 8) }
  let c2 :=
    if check_bit value 7 then
      let freq_val := if c1.frequency > 2047 then 2047 else c1.frequency
      let t0 := (2048 - freq_val) * 4
      let t1 := if t0 = 0 then 8192 * 4 else t0
      { c1 with enabled := true,
                timer := t1,
                length_counter := if c1.length_counter = 0 then 64 else c1.length_counter,
                duty_position := 0,
                volume := c1.envelope_initial_volume }
    else c1
  { c2 with length_enabled := check_bit value 6 }

/-- `class WaveChannel` (channel 3). -/
structure WaveChannel where
  enabled : Bool
  volume : Nat
  length_counter : Nat
  length_enabled : Bool
  wave_pattern : List Nat
  position : Nat
  output_level : Nat
  frequency : Nat
  timer : Nat
deriving DecidableEq

/-- `WaveChannel::tick`. -/
def WaveChannel.tick (c : WaveChannel) (cycles : Nat) : WaveChannel :=
  if !c.enabled then c
  else if c.timer > cycles then { c with timer := c.timer - cycles }
  else
    let freq_val := if c.frequency > 2047 then 2047 else c.frequency
    let t0 := (2048 - freq_val) * 2
    let t1 := if t0 = 0 then 8192 * 2 else t0
    { c with position := (c.position + 1) % 32, timer := t1 }

/-- `WaveChannel::get_sample`. -/
def WaveChannel.get_sample (c : WaveChannel) : ℚ :=
  if !c.enabled then 0
  else
    let wave_byte := c.wave_pattern.getD (c.position / 2) 0
    let wave_nibble := if c.position % 2 = 0 then wave_byte >>> 4 else wave_byte &&& 0x0F
    match c.output_level with
    | 0 => 0
    | 1 => (wave_nibble : ℚ) / 7.5 - 1
    | 2 => ((wave_nibble : ℚ) / 7.5 - 1) * 0.5
    | 3 => ((wave_nibble : ℚ) / 7.5 - 1) * 0.25
    | _ => 0

/-- `WaveChannel::set_enable_register` (NR30). -/
def WaveChannel.set_enable_register (c : WaveChannel) (value : Nat) : WaveChannel :=
  { c with enabled := check_bit value 7 }

/-- `WaveChannel::set_length_register` (NR31). -/
def WaveChannel.set_length_register (c : WaveChannel) (value : Nat) : WaveChannel :=
  { c with length_counter := 256 - value }

/-- `WaveChannel::set_output_level_register` (NR32). -/
def WaveChannel.set_output_level_register (c : WaveChannel) (value : Nat) : WaveChannel :=
  { c with output_level := (value >>> 5) &&& 0x03 }

/-- `WaveChannel::set_frequency_lo_register` (NR33). -/
def WaveChannel.set_frequency_lo_register (c : WaveChannel) (value : Nat) : WaveChannel :=
  { c with frequency := (c.frequency &&& 0x700) ||| value }

/-- `WaveChannel::set_frequency_hi_register` (NR34). -/
def WaveChannel.set_frequency_hi_register (c : WaveChannel) (value : Nat) : WaveChannel :=
  let c1 := { c with frequency := (c.frequency &&& 0xFF) ||| ((value &&& 0x07) <<< 8) }
  let c2 :=
    if check_bit value 7 then
      let freq_val := if c1.frequency > 2047 then 2047 else c1.frequency
      let t0 := (2048 - freq_val) * 2
      let t1 := if t0 = 0 then 8192 * 2 else t0
      { c1 with enabled := true,
                timer := t1,
                position := 0,
                length_counter := if c1.length_counter = 0 then 256 else c1.length_counter }
    else c1
  { c2 with length_enabled := check_bit value 6 }

/-- `WaveChannel::set_wave_pattern`. -/
def WaveChannel.set_wave_pattern (c : WaveChannel) (index value : Nat) : WaveChannel :=
  if index < 16 then { c with wave_pattern := c.wave_pattern.set index value } else c

/-- `WaveChannel::get_wave_pattern`. -/
def WaveChannel.get_wave_pattern (c : WaveChannel) (index : Nat) : Nat :=
  if index < 16 then c.wave_pattern.getD index 0 else 0xFF

/-- `class NoiseChannel` (channel 4). -/
structure NoiseChannel where
  enabled : Bool
  volume : Nat
  length_counter : Nat
  length_enabled : Bool
  envelope_initial_volume : Nat
  envelope_increase : Bool
  envelope_sweep_pace : Nat
  shift_clock_frequency : Nat
  counter_step_width_mode : Bool
  dividing_ratio : Nat
  timer : Nat
  lfsr : Nat
deriving DecidableEq

/-- The `divisors` table of `NoiseChannel::tick`. -/
def noise_divisors : List Nat := [8, 16, 32, 48, 64, 80, 96, 112]

/-- `NoiseChannel::tick`. -/
def NoiseChannel.tick (c : NoiseChannel) (cycles : Nat) : NoiseChannel :=
  if !c.enabled then c
  else if c.timer > cycles then { c with timer := c.timer - cycles }
  else
    let divisor := noise_divisors.getD (c.dividing_ratio &&& 0x07) 0
    let clock_shift := c.shift_clock_frequency &&& 0x0F
    let p0 := divisor <<< clock_shift
    let p1 := if p0 = 0 then 8 else p0
    let xor_result := ((c.lfsr &&& 0x1) ^^^ ((c.lfsr >>> 1) &&& 0x1)) != 0
    let l1 := c.lfsr >>> 1
    let l2 := set_bit_to l1 14 xor_result
    let l3 := if c.counter_step_width_mode then set_bit_to l2 6 xor_result else l2
    { c with timer := p1, lfsr := l3 }

/-- `NoiseChannel::get_sample`. -/
def NoiseChannel.get_sample (c : NoiseChannel) : ℚ :=
  if !c.enabled then 0
  else
    let high := (c.lfsr &&& 0x1) = 0
    if high then (c.volume : ℚ) / 15 else -((c.volume : ℚ) / 15)

/-- `NoiseChannel::set_length_register` (NR41). -/
def NoiseChannel.set_length_register (c : NoiseChannel) (value : Nat) : NoiseChannel :=
  { c with length_counter := 64 - (value &&& 0x3F) }

/-- `NoiseChannel::set_volume_envelope_register` (NR42). -/
def NoiseChannel.set_volume_envelope_register (c : NoiseChannel) (value : Nat) : NoiseChannel :=
  let iv := (value >>> 4) &&& 0x0F
  { c with envelope_initial_volume := iv,
           envelope_increase := check_bit value 3,
           envelope_sweep_pace := value &&& 0x07,
           volume := iv }

/-- `NoiseChannel::set_polynomial_register` (NR43). -/
def NoiseChannel.set_polynomial_register (c : NoiseChannel) (value : Nat) : NoiseChannel :=
  { c with shift_clock_frequency := (value >>> 4) &&& 0x0F,
           counter_step_width_mode := check_bit value 3,
           dividing_ratio := value &&& 0x07 }

/-- `NoiseChannel::set_counter_register` (NR44). -/
def NoiseChannel.set_counter_register (c : NoiseChannel) (value : Nat) : NoiseChannel :=
  let c1 :=
    if check_bit value 7 then
      let divisor := noise_divisors.getD (c.dividing_ratio &&& 0x07) 0
      let clock_shift := c.shift_clock_frequency &&& 0x0F
      let p0 := divisor <<< clock_shift
      let p1 := if p0 = 0 then 8 else p0
      { c with enabled := true,
               lfsr := 0x7FFF,
               timer := p1,
               length_counter := if c.length_counter = 0 then 64 else c.length_counter,
               volume := c.envelope_initial_volume }
    else c
  { c1 with length_enabled := check_bit value 6 }

/-- `CLOCK_RATE` (definitions.h): the 4.194304 MHz master clock. -/
def CLOCK_RATE : Nat := 4194304

/-- `CYCLES_PER_SAMPLE` as computed in `Audio::tick`:
`CLOCK_RATE / 44100` in integer division. -/
def CYCLES_PER_SAMPLE : Nat := CLOCK_RATE / 44100

/-- `class Audio`: the four channels, the NR50/NR51/NR52 registers, the
sample-cadence counter and the two PCM buffers.  `callback_registered`
models whether `register_audio_callback` was called; `flushes` is the
ghost list of buffer pairs handed to the callback; `samples_mixed` is a
ghost count of `mix_samples` calls. -/
structure Audio where
  channel1 : ToneSweepChannel
  channel2 : ToneChannel
  channel3 : WaveChannel
  channel4 : NoiseChannel
  nr50 : Nat
  nr51 : Nat
  nr52 : Nat
  sample_counter : Nat
  left_buffer : List ℚ
  right_buffer : List ℚ
  callback_registered : Bool
  flushes : List (List ℚ × List ℚ)
  samples_mixed : Nat
deriving DecidableEq

/-- `Audio::mix_samples`: mix the four channel outputs into one stereo
sample and push it onto the internal buffers (silence when NR52 bit 7 is
clear). -/
def Audio.mix_samples (s : Audio) : Audio :=
  if !check_bit s.nr52 7 then
    { s with left_buffer := s.left_buffer ++ [0],
             right_buffer := s.right_buffer ++ [0],
             samples_mixed := s.samples_mixed + 1 }
  else
    let sample1 := s.channel1.get_sample
    let sample2 := s.channel2.get_sample
    let sample3 := s.channel3.get_sample
    let sample4 := s.channel4.get_sample
    let left_vol := (s.nr50 >>> 4) &&& 0x7
    let right_vol := s.nr50 &&& 0x7
    let l0 : ℚ := 0
    let l1 := if check_bit s.nr51 7 then l0 + sample4 else l0
    let l2 := if check_bit s.nr51 6 then l1 + sample3 else l1
    let l3 := if check_bit s.nr51 5 then l2 + sample2 else l2
    let l4 := if check_bit s.nr51 4 then l3 + sample1 else l3
    let l5 := l4 * ((left_vol : ℚ) / 7)
    let r0 : ℚ := 0
    let r1 := if check_bit s.nr51 3 then r0 + sample4 else r0
    let r2 := if check_bit s.nr51 2 then r1 + sample3 else r1
    let r3 := if check_bit s.nr51 1 then r2 + sample2 else r2
    let r4 := if check_bit s.nr51 0 then r3 + sample1 else r3
    let r5 := r4 * ((right_vol : ℚ) / 7)
    let l6 := l5 / 4
    let r6 := r5 / 4
    let left_final := max (-1 : ℚ) (min 1 l6)
    let right_final := max (-1 : ℚ) (min 1 r6)
    { s with left_buffer := s.left_buffer ++ [left_final],
             right_buffer := s.right_buffer ++ [right_final],
             samples_mixed := s.samples_mixed + 1 }

/-- The flush step inside `Audio::tick`'s sample loop: when the left
buffer has reached 1024 samples, hand copies of both buffers to the host
audio callback (if registered) and clear both internal buffers. -/
def Audio.flush_if_full (s : Audio) : Audio :=
  if s.left_buffer.length ≥ 1024 then
    let s1 := if s.callback_registered then
        { s with flushes := s.flushes ++ [(s.left_buffer, s.right_buffer)] }
      else s
    { s1 with left_buffer := [], right_buffer := [] }
  else s

/-- The `while (sample_counter >= CYCLES_PER_SAMPLE)` loop of
`Audio::tick`, run for its exact iteration count: each pass subtracts
`CYCLES_PER_SAMPLE`, mixes one sample, and flushes if full. -/
def Audio.sample_loop : Nat → Audio → Audio
  | 0, s => s
  | n + 1, s =>
    Audio.sample_loop n
      (({ s with sample_counter := s.sample_counter - CYCLES_PER_SAMPLE }).mix_samples.flush_if_full)

/-- `Audio::tick(uint cycles)`: tick the four channels, advance the sample
counter, and generate one sample per elapsed `CYCLES_PER_SAMPLE`
T-states.  The while loop runs exactly `sample_counter / CYCLES_PER_SAMPLE`
times (each iteration removes `CYCLES_PER_SAMPLE` from the counter and
nothing else changes it). -/
def Audio.tick (s : Audio) (cycles : Nat) : Audio :=
  let s1 := { s with channel1 := s.channel1.tick cycles,
                     channel2 := s.channel2.tick cycles,
                     channel3 := s.channel3.tick cycles,
                     channel4 := s.channel4.tick cycles,
                     sample_counter := s.sample_counter + cycles }
  Audio.sample_loop (s1.sample_counter / CYCLES_PER_SAMPLE) s1

/-- `Audio::write_register(u16 address, u8 value)`. -/
def Audio.write_register (s : Audio) (address value : Nat) : Audio :=
  let audio_enabled := check_bit s.nr52 7
  if !audio_enabled && address != 0xFF26 then
    if 0xFF30 ≤ address ∧ address ≤ 0xFF3F then
      { s with channel3 := s.channel3.set_wave_pattern (address - 0xFF30) value }
    else s
  else if 0xFF10 ≤ address ∧ address ≤ 0xFF14 then
    if address = 0xFF10 then { s with channel1 := s.channel1.set_sweep_register value }
    else if address = 0xFF11 then { s with channel1 := s.channel1.set_length_duty_register value }
    else if address = 0xFF12 then { s with channel1 := s.channel1.set_volume_envelope_register value }
    else if address = 0xFF13 then { s with channel1 := s.channel1.set_frequency_lo_register value }
    else { s with channel1 := s.channel1.set_frequency_hi_register value }
  else if 0xFF16 ≤ address ∧ address ≤ 0xFF19 then
    if address = 0xFF16 then { s with channel2 := s.channel2.set_length_duty_register value }
    else if address = 0xFF17 then { s with channel2 := s.channel2.set_volume_envelope_register value }
    else if address = 0xFF18 then { s with channel2 := s.channel2.set_frequency_lo_register value }
    else { s with channel2 := s.channel2.set_frequency_hi_register value }
  else if 0xFF1A ≤ address ∧ address ≤ 0xFF1E then
    if address = 0xFF1A then { s with channel3 := s.channel3.set_enable_register value }
    else if address = 0xFF1B then { s with channel3 := s.channel3.set_length_register value }
    else if address = 0xFF1C then { s with channel3 := s.channel3.set_output_level_register value }
    else if address = 0xFF1D then { s with channel3 := s.channel3.set_frequency_lo_register value }
    else { s with channel3 := s.channel3.set_frequency_hi_register value }
  else if 0xFF20 ≤ address ∧ address ≤ 0xFF23 then
    if address = 0xFF20 then { s with channel4 := s.channel4.set_length_register value }
    else if address = 0xFF21 then { s with channel4 := s.channel4.set_volume_envelope_register value }
    else if address = 0xFF22 then { s with channel4 := s.channel4.set_polynomial_register value }
    else { s with channel4 := s.channel4.set_counter_register value }
  else if 0xFF24 ≤ address ∧ address ≤ 0xFF26 then
    if address = 0xFF24 then { s with nr50 := value }
    else if address = 0xFF25 then { s with nr51 := value }
    else
      let was_enabled := check_bit s.nr52 7
      let current_status := s.nr52 &&& 0x0F
      let s1 := { s with nr52 := (value &&& 0x80) ||| current_status ||| 0x70 }
      let now_enabled := check_bit s1.nr52 7
      if was_enabled && !now_enabled then
        -- The source's reset loop over 0xFF10..0xFF25 has an empty body
        -- (the write_register(reg_addr, 0x00) call is commented out); only
        -- the four set_enabled(false) calls take effect.
        { s1 with channel1 := { s1.channel1 with enabled := false },
                  channel2 := { s1.channel2 with enabled := false },
                  channel3 := { s1.channel3 with enabled := false },
                  channel4 := { s1.channel4 with enabled := false } }
      else s1
  else if 0xFF30 ≤ address ∧ address ≤ 0xFF3F then
    { s with channel3 := s.channel3.set_wave_pattern (address - 0xFF30) value }
  else s

/-- `Audio::read_register(u16 address)`. -/
def Audio.read_register (s : Audio) (address : Nat) : Nat :=
  if 0xFF10 ≤ address ∧ address ≤ 0xFF14 then
    if address = 0xFF10 then 0x80
    else if address = 0xFF11 then 0x3F
    else if address = 0xFF12 then s.channel1.volume <<< 4
    else if address = 0xFF13 then 0xFF
    else 0xBF
  else if 0xFF16 ≤ address ∧ address ≤ 0xFF19 then
    if address = 0xFF16 then 0x3F
    else if address = 0xFF17 then s.channel2.volume <<< 4
    else if address = 0xFF18 then 0xFF
    else 0xBF
  else if 0xFF1A ≤ address ∧ address ≤ 0xFF1E then
    if address = 0xFF1A then (if s.channel3.enabled then 0xFF else 0x7F)
    else if address = 0xFF1B then 0xFF
    else if address = 0xFF1C then 0x9F
    else if address = 0xFF1D then 0xFF
    else 0xBF
  else if 0xFF20 ≤ address ∧ address ≤ 0xFF23 then
    if address = 0xFF20 then 0xFF
    else if address = 0xFF21 then s.channel4.volume <<< 4
    else if address = 0xFF22 then 0x00
    else 0xBF
  else if 0xFF24 ≤ address ∧ address ≤ 0xFF26 then
    if address = 0xFF24 then s.nr50
    else if address = 0xFF25 then s.nr51
    else
      let v0 := (s.nr52 &&& 0x80) ||| 0x70
      let v1 := if s.channel1.enabled then v0 ||| 0x01 else v0
      let v2 := if s.channel2.enabled then v1 ||| 0x02 else v1
      let v3 := if s.channel3.enabled then v2 ||| 0x04 else v2
      let v4 := if s.channel4.enabled then v3 ||| 0x08 else v3
      v4
  else if 0xFF30 ≤ address ∧ address ≤ 0xFF3F then
    s.channel3.get_wave_pattern (address - 0xFF30)
  else 0xFF

/-! ## Pixel colors, palettes and the sprite priority decision
(src/video/video.cc rendering helpers)

The per-pixel rendering path that decides sprite-behind-background
priority: a background pixel's 2-bit pre-palette index is produced by
`get_pixel_from_line`, mapped through BGP by `load_palette` /
`get_color_from_palette` into the frame buffer, and `draw_sprite` then
consults `get_original_color_at`, which reverse-maps the *displayed*
buffer color.  `get_original_color_at` takes the buffer color it reads at
(x, y) as its argument here. -/

/-- `enum class GBColor` (2-bit color index; color.h). -/
inductive GBColor
  | Color0
  | Color1
  | Color2
  | Color3
deriving DecidableEq

/-- `enum class Color` (displayed shade; color.h). -/
inductive Color
  | White
  | LightGray
  | DarkGray
  | Black
deriving DecidableEq

/-- `get_color` (color.h): the 2-bit value as a `GBColor`. -/
def get_color (value : Nat) : GBColor :=
  match value with
  | 0 => GBColor.Color0
  | 1 => GBColor.Color1
  | 2 => GBColor.Color2
  | _ => GBColor.Color3

/-- `struct Palette`. -/
structure Palette where
  color0 : Color
  color1 : Color
  color2 : Color
  color3 : Color
deriving DecidableEq

/-- `Video::get_pixel_from_line`: the pre-palette 2-bit color index of
pixel `pixel_index` in a tile row made of bytes `byte1`/`byte2`. -/
def get_pixel_from_line (byte1 byte2 pixel_index : Nat) : GBColor :=
  get_color ((bit_value byte2 (7 - pixel_index) <<< 1) ||| bit_value byte1 (7 - pixel_index))

/-- `Video::get_real_color`: a 2-bit palette entry as a shade (other
values hit `fatal_error` in the source; all call sites mask with 0x03). -/
def get_real_color (pixel_value : Nat) : Color :=
  match pixel_value with
  | 0 => Color.White
  | 1 => Color.LightGray
  | 2 => Color.DarkGray
  | _ => Color.Black

/-- `Video::load_palette`: decode a palette register byte. -/
def load_palette (palette_value : Nat) : Palette :=
  { color0 := get_real_color (palette_value &&& 0x03)
    color1 := get_real_color ((palette_value >>> 2) &&& 0x03)
    color2 := get_real_color ((palette_value >>> 4) &&& 0x03)
    color3 := get_real_color ((palette_value >>> 6) &&& 0x03) }

/-- `Video::get_color_from_palette`. -/
def get_color_from_palette (color : GBColor) (palette : Palette) : Color :=
  match color with
  | GBColor.Color0 => palette.color0
  | GBColor.Color1 => palette.color1
  | GBColor.Color2 => palette.color2
  | GBColor.Color3 => palette.color3

/-- The displayed color `draw_bg_line` / `draw_window_line` writes into
the frame buffer for a pixel whose pre-palette index is `idx`, with BGP
byte `bgp`. -/
def bg_displayed_color (bgp : Nat) (idx : GBColor) : Color :=
  get_color_from_palette idx (load_palette bgp)

/-- `Video::get_original_color_at`: reverse-map the displayed color found
in the frame buffer at (x, y) back to a color index (the source comments
call this an approximation of keeping the original indices). -/
def get_original_color_at (current_color : Color) : GBColor :=
  match current_color with
  | Color.White => GBColor.Color0
  | Color.LightGray => GBColor.Color1
  | Color.DarkGray => GBColor.Color2
  | Color.Black => GBColor.Color3

/-- The per-pixel decision in `Video::draw_sprite`'s inner loop: a sprite
pixel of color `gb_color` is drawn at a position whose frame buffer holds
`buffer_color` unless it is transparent (color 0) or the behind-BG
attribute is set and `get_original_color_at` reports a non-zero index. -/
def sprite_pixel_drawn (gb_color : GBColor) (obj_behind_bg : Bool) (buffer_color : Color) : Bool :=
  if gb_color = GBColor.Color0 then false
  else if obj_behind_bg && decide (get_original_color_at buffer_color ≠ GBColor.Color0) then false
  else true

/-! ## Orchestrator (class Gameboy, src/gameboy.cc) -/

/-- Modelled from the spec: the Timer's internal 16-bit counter advances
every T-state (the Timer implementation is not among the embedded
sources; only this counter is needed to express that `Gameboy::tick`
advances the Timer by the CPU's cycle count). -/
structure TimerState where
  internal_counter : Nat
deriving DecidableEq

/-- Modelled from the spec: advancing the Timer by `cycles` T-states. -/
def TimerState.tick (t : TimerState) (cycles : Nat) : TimerState :=
  { internal_counter := (t.internal_counter + cycles) % 65536 }

/-- The three subsystems `Gameboy::tick` advances after the CPU step. -/
inductive Subsystem
  | PPU
  | APU
  | TIMER
deriving DecidableEq

/-- The orchestrator state: the CPU is abstract (its sources are not part
of the embedding), represented by an opaque `Nat` state; `trace` is the
ghost list of (subsystem, cycles) advances in call order. -/
structure GbState where
  cpu : Nat
  elapsed_cycles : Nat
  video : VideoState
  audio : Audio
  timer : TimerState
  trace : List (Subsystem × Nat)
deriving DecidableEq

/-- `Gameboy::tick`: run one CPU instruction (abstract step `cpu_tick`
returning the new CPU state and the cycles consumed), add the cycles to
`elapsed_cycles`, then advance Video, Audio and Timer by that cycle
count, in that order (recorded in `trace`). -/
def gameboy_tick (cpu_tick : Nat → Nat × Nat) (s : GbState) : GbState :=
  let r := cpu_tick s.cpu
  { cpu := r.1
    elapsed_cycles := s.elapsed_cycles + r.2
    video := s.video.tick r.2
    audio := s.audio.tick r.2
    timer := s.timer.tick r.2
    trace := s.trace ++ [(Subsystem.PPU, r.2), (Subsystem.APU, r.2), (Subsystem.TIMER, r.2)] }

/-! ## Statements taken from the specification's words

These definitions transcribe the specification's description of sample
mixing, to be compared against the embedded `Audio.mix_samples`. -/

/-- From the spec: clamp a sample to [-1, 1]. -/
def spec_clamp (x : ℚ) : ℚ := max (-1) (min 1 x)

/-- From the spec: the left sample is the sum of the outputs of the
channels whose NR51 left-panning bit (bits 4..7 for channels 1..4) is
set, scaled by the NR50 left volume over 7, then by 1/4. -/
def spec_mix_left (s : Audio) : ℚ :=
  ((if check_bit s.nr51 4 then s.channel1.get_sample else 0) +
   (if check_bit s.nr51 5 then s.channel2.get_sample else 0) +
   (if check_bit s.nr51 6 then s.channel3.get_sample else 0) +
   (if check_bit s.nr51 7 then s.channel4.get_sample else 0)) *
    ((((s.nr50 >>> 4) &&& 0x7 : Nat) : ℚ) / 7) / 4

/-- From the spec: the right sample, from NR51 bits 0..3 and the NR50
right volume. -/
def spec_mix_right (s : Audio) : ℚ :=
  ((if check_bit s.nr51 0 then s.channel1.get_sample else 0) +
   (if check_bit s.nr51 1 then s.channel2.get_sample else 0) +
   (if check_bit s.nr51 2 then s.channel3.get_sample else 0) +
   (if check_bit s.nr51 3 then s.channel4.get_sample else 0)) *
    (((s.nr50 &&& 0x7 : Nat) : ℚ) / 7) / 4

/-! ## Concrete states used by the closed-form theorems -/

/-- A channel-1 state with every member at its declared initializer. -/
def ToneSweepChannel.init : ToneSweepChannel :=
  { enabled := false, volume := 0, length_counter := 0, length_enabled := false,
    sweep_time := 0, sweep_decrease := false, sweep_shift := 0,
    duty_pattern := 0, duty_position := 0,
    envelope_initial_volume := 0, envelope_increase := false, envelope_sweep_pace := 0,
    frequency := 0, timer := 0 }

/-- A channel-2 state with every member at its declared initializer. -/
def ToneChannel.init : ToneChannel :=
  { enabled := false, volume := 0, length_counter := 0, length_enabled := false,
    duty_pattern := 0, duty_position := 0,
    envelope_initial_volume := 0, envelope_increase := false, envelope_sweep_pace := 0,
    frequency := 0, timer := 0 }

/-- A channel-3 state with every member at its declared initializer. -/
def WaveChannel.init : WaveChannel :=
  { enabled := false, volume := 0, length_counter := 0, length_enabled := false,
    wave_pattern := List.replicate 16 0, position := 0, output_level := 0,
    frequency := 0, timer := 0 }

/-- A channel-4 state with every member at its declared initializer
(`lfsr = 0x7FFF` from the constructor). -/
def NoiseChannel.init : NoiseChannel :=
  { enabled := false, volume := 0, length_counter := 0, length_enabled := false,
    envelope_initial_volume := 0, envelope_increase := false, envelope_sweep_pace := 0,
    shift_clock_frequency := 0, counter_step_width_mode := false, dividing_ratio := 0,
    timer := 0, lfsr := 0x7FFF }

/-- The `Audio` state right after construction, with a host audio
callback registered. -/
def audio_init : Audio :=
  { channel1 := ToneSweepChannel.init
    channel2 := ToneChannel.init
    channel3 := WaveChannel.init
    channel4 := NoiseChannel.init
    nr50 := 0, nr51 := 0, nr52 := 0
    sample_counter := 0
    left_buffer := [], right_buffer := []
    callback_registered := true
    flushes := []
    samples_mixed := 0 }

/-- An artificial `Audio` state whose master enable (NR52 bit 7) is clear
while channel 1 is still flagged enabled at full volume with its duty
output high, and with NR50 = 0x77, NR51 = 0xFF. -/
def audio_master_off_active : Audio :=
  { audio_init with
      channel1 := { ToneSweepChannel.init with
                      enabled := true, volume := 15,
                      duty_pattern := 0, duty_position := 7 }
      nr50 := 0x77, nr51 := 0xFF, nr52 := 0x00 }

/-- An `Audio` state with the master enable set, NR50 = 0x77,
NR51 = 0x12, channel 1 enabled, and a distinctive first wave RAM byte. -/
def audio_enabled_state : Audio :=
  { audio_init with
      channel1 := { ToneSweepChannel.init with enabled := true, volume := 10 }
      channel3 := { WaveChannel.init with wave_pattern := 0xA5 :: List.replicate 15 0 }
      nr50 := 0x77, nr51 := 0x12, nr52 := 0xF0 }

/-! ## Lemmas -/

lemma proj_write_scanline (s : VideoState) (l : Nat) :
    (s.write_scanline l).proj = s.proj := by
  unfold VideoState.write_scanline
  split
  · rfl
  · dsimp only
    split <;> split <;> rfl

lemma proj_write_sprites (s : VideoState) :
    s.write_sprites.proj = s.proj := by
  unfold VideoState.write_sprites
  split <;> rfl


/-- `Video::tick` commutes with the projection: the mode machine never
reads the dropped fields. -/
lemma proj_tick (s : VideoState) (c : Nat) :
    (s.tick c).proj = s.proj.tick c := by
  obtain ⟨mode, cc, line, lyc, st, ctrl, iflag, d1, d2, d3, g1, g2, g3, g4⟩ := s
  cases mode <;>
    (unfold VideoState.tick MachineState.tick VideoState.write_scanline
      VideoState.write_sprites;
     dsimp only [VideoState.proj];
     split_ifs <;> rfl)

lemma machine_run_add (a b : Nat) (s : MachineState) :
    machine_run (a + b) s = machine_run b (machine_run a s) := by
  induction a generalizing s with
  | zero => rw [Nat.zero_add]; rfl
  | succ a ih =>
    have : a + 1 + b = (a + b) + 1 := by omega
    rw [this, machine_run, machine_run, ih]

lemma proj_run_ticks (k : Nat) (s : VideoState) :
    (run_ticks k s).proj = machine_run k s.proj := by
  induction k generalizing s with
  | zero => rfl
  | succ k ih => rw [run_ticks, machine_run, ih, proj_tick]


/-- Away from the transition ticks, one 4 T-state tick of the scheduled
machine state just advances the mode cycle counter, matching the schedule
at `t + 4`. -/
lemma step_ok_mid (t : Nat) (ht : t < 70224) (hmod : t % 4 = 0)
    (hb : ¬(t % 456 = 452 ∨ (t / 456 < 144 ∧ (t % 456 = 76 ∨ t % 456 = 248)))) :
    (mstate_of t).tick 4 = mstate_of (t + 4) := by
  push_neg at hb
  have hmm : t % 456 % 4 = 0 := by omega
  by_cases hl : t / 456 < 144
  · obtain ⟨hb452, hb7648⟩ := hb
    have hb76 := (hb7648 hl).1
    have hb248 := (hb7648 hl).2
    have ht4 : t + 4 < 70224 := by omega
    have e1 : (t + 4) / 456 = t / 456 := by omega
    have e2 : (t + 4) % 456 = t % 456 + 4 := by omega
    by_cases hr1 : t % 456 < 80
    · have hr76 : t % 456 + 4 < 80 := by omega
      have hif1 : ¬(65664 ≤ t) := by omega
      have hif2 : ¬(65664 ≤ t + 4) := by omega
      simp only [mstate_of, expected_mode, expected_counter, expected_line, expected_status,
        MachineState.tick, CLOCKS_PER_SCANLINE_OAM, e1, e2,
        if_pos ht, if_pos ht4, if_pos hl, if_pos hr1, if_pos hr76,
        if_neg hif1, if_neg hif2]
      rw [if_neg (by omega : ¬(t % 456 + 4 ≥ 80))]
    · by_cases hr2 : t % 456 < 252
      · have hr3 : t % 456 + 4 < 252 := by omega
        have hif1 : ¬(65664 ≤ t) := by omega
        have hif2 : ¬(65664 ≤ t + 4) := by omega
        simp only [mstate_of, expected_mode, expected_counter, expected_line, expected_status,
          MachineState.tick, CLOCKS_PER_SCANLINE_VRAM, e1, e2,
          if_pos ht, if_pos ht4, if_pos hl,
          if_neg (by omega : ¬(t % 456 < 80)), if_neg (by omega : ¬(t % 456 + 4 < 80)),
          if_pos hr2, if_pos hr3, if_neg hif1, if_neg hif2]
        rw [if_neg (by omega : ¬(t % 456 - 80 + 4 ≥ 172))]
        simp only [MachineState.mk.injEq, eq_self_iff_true, and_true, true_and]
        omega
      · have hr3 : ¬(t % 456 + 4 < 252) := by omega
        have hif1 : ¬(65664 ≤ t) := by omega
        have hif2 : ¬(65664 ≤ t + 4) := by omega
        simp only [mstate_of, expected_mode, expected_counter, expected_line, expected_status,
          MachineState.tick, CLOCKS_PER_HBLANK, e1, e2,
          if_pos ht, if_pos ht4, if_pos hl,
          if_neg (by omega : ¬(t % 456 < 80)), if_neg (by omega : ¬(t % 456 + 4 < 80)),
          if_neg (by omega : ¬(t % 456 < 252)), if_neg hr3, if_neg hif1, if_neg hif2]
        rw [if_neg (by omega : ¬(t % 456 - 252 + 4 ≥ 204))]
        simp only [MachineState.mk.injEq, eq_self_iff_true, and_true, true_and]
        omega
  · obtain ⟨hb452, _⟩ := hb
    have ht4 : t + 4 < 70224 := by
      have : t / 456 ≤ 153 := by omega
      omega
    have e1 : (t + 4) / 456 = t / 456 := by omega
    have e2 : (t + 4) % 456 = t % 456 + 4 := by omega
    have hif1 : 65664 ≤ t := by omega
    have hif2 : 65664 ≤ t + 4 := by omega
    simp only [mstate_of, expected_mode, expected_counter, expected_line, expected_status,
      MachineState.tick, CLOCKS_PER_SCANLINE, CLOCKS_PER_SCANLINE_OAM,
      CLOCKS_PER_SCANLINE_VRAM, CLOCKS_PER_HBLANK, e1, e2,
      if_pos ht, if_pos ht4, if_neg hl, if_pos hif1, if_pos hif2]
    rw [if_neg (by omega : ¬(t % 456 + 4 ≥ 80 + 172 + 204))]

set_option maxRecDepth 4000 in
/-- All 442 transition ticks check out, by computation. -/
lemma boundary_all : boundary_ticks.all step_ok = true := by decide

lemma boundary_mem (k : Nat) (hk : k < 17556)
    (hb : k % 114 = 113 ∨ (k / 114 < 144 ∧ (k % 114 = 19 ∨ k % 114 = 62))) :
    k ∈ boundary_ticks := by
  have hl : k / 114 < 154 := by omega
  unfold boundary_ticks
  rw [List.mem_flatMap]
  refine ⟨k / 114, List.mem_range.mpr hl, ?_⟩
  by_cases h144 : k / 114 < 144
  · rw [if_pos h144]
    rcases hb with h | ⟨_, h | h⟩ <;> simp [List.mem_cons] <;> omega
  · rw [if_neg h144]
    have h113 : k % 114 = 113 := by
      rcases hb with h | ⟨hlt, _⟩
      · exact h
      · omega
    simp [List.mem_cons]
    omega

/-- Every tick of the frame follows the schedule: the transition ticks by
the computation `boundary_all`, the rest by `step_ok_mid`. -/
lemma step_ok_all (k : Nat) (hk : k < 17556) : step_ok k = true := by
  by_cases hb : k % 114 = 113 ∨ (k / 114 < 144 ∧ (k % 114 = 19 ∨ k % 114 = 62))
  · exact List.all_eq_true.mp boundary_all k (boundary_mem k hk hb)
  · have hmid := step_ok_mid (4 * k) (by omega) (by omega) (by
      push_neg
      constructor
      · omega
      · intro h1
        constructor <;> omega)
    unfold step_ok
    rw [hmid]
    exact beq_self_eq_true (mstate_of (4 * k + 4))

lemma run_eq_mstate (hall : ∀ k, k < 17556 → step_ok k = true) :
    ∀ k, k ≤ 17556 → machine_run k video_reset.proj = mstate_of (4 * k) := by
  intro k
  induction k with
  | zero => intro h; decide
  | succ k ih =>
    intro hk
    have hstep : (mstate_of (4 * k)).tick 4 = mstate_of (4 * k + 4) :=
      eq_of_beq (hall k (by omega))
    have hrun1 : machine_run (k + 1) video_reset.proj
        = (machine_run k video_reset.proj).tick 4 := by
      have h := machine_run_add k 1 video_reset.proj
      rw [h]
      rfl
    rw [hrun1, ih (by omega), hstep, show 4 * k + 4 = 4 * (k + 1) by omega]

/-- With the display disabled, `Video::tick` never touches the rendering
ghost fields: `write_scanline` returns immediately. -/
lemma tick_drawn_of_display_disabled (s : VideoState) (c : Nat)
    (h : s.display_enabled = false) :
    (s.tick c).drawn_bg = s.drawn_bg ∧ (s.tick c).drawn_window = s.drawn_window := by
  unfold VideoState.tick
  cases hm : s.current_mode <;> dsimp only
  · split <;> exact ⟨rfl, rfl⟩
  · split <;> exact ⟨rfl, rfl⟩
  · split
    · have hws : s.write_scanline s.line = s := by
        unfold VideoState.write_scanline
        rw [h]
        rfl
      rw [hws]
      split <;> exact ⟨rfl, rfl⟩
    · exact ⟨rfl, rfl⟩
  · split
    · split
      · unfold VideoState.write_sprites
        split <;> exact ⟨rfl, rfl⟩
      · exact ⟨rfl, rfl⟩
    · exact ⟨rfl, rfl⟩

/-- Setting LCDC bit 7 changes no projected field. -/
lemma proj_set_control (s : VideoState) (b : Nat) :
    ({ s with control_byte := b } : VideoState).proj = s.proj := rfl

/-! ## Claim theorems -/

/-- C3: For every orchestrator tick, if the CPU step returns n cycles,
then the PPU is advanced by exactly n, then the APU is advanced by
exactly n, then the Timer is advanced by exactly n, in that order (the
`trace` ghost records the advances in call order), and `elapsed_cycles`
increases by exactly n. -/
theorem c3_orchestrator_order (cpu_tick : Nat → Nat × Nat) (s : GbState) :
    (gameboy_tick cpu_tick s).elapsed_cycles = s.elapsed_cycles + (cpu_tick s.cpu).2 ∧
    (gameboy_tick cpu_tick s).video = s.video.tick (cpu_tick s.cpu).2 ∧
    (gameboy_tick cpu_tick s).audio = s.audio.tick (cpu_tick s.cpu).2 ∧
    (gameboy_tick cpu_tick s).timer = s.timer.tick (cpu_tick s.cpu).2 ∧
    (gameboy_tick cpu_tick s).trace = s.trace ++
      [(Subsystem.PPU, (cpu_tick s.cpu).2), (Subsystem.APU, (cpu_tick s.cpu).2),
       (Subsystem.TIMER, (cpu_tick s.cpu).2)] :=
  ⟨rfl, rfl, rfl, rfl, rfl⟩

/-- C9: For every sound channel whose enabled flag is false and every
cycle count, `tick` leaves the whole channel state unchanged and
`get_sample` returns exactly 0. -/
theorem c9_disabled_channels_inert (a : ToneSweepChannel) (b : ToneChannel)
    (w : WaveChannel) (n : NoiseChannel) (ca cb cw cn : Nat)
    (ha : a.enabled = false) (hb : b.enabled = false)
    (hw : w.enabled = false) (hn : n.enabled = false) :
    a.tick ca = a ∧ a.get_sample = 0 ∧
    b.tick cb = b ∧ b.get_sample = 0 ∧
    w.tick cw = w ∧ w.get_sample = 0 ∧
    n.tick cn = n ∧ n.get_sample = 0 := by
  refine ⟨?_, ?_, ?_, ?_, ?_, ?_, ?_, ?_⟩
  · simp [ToneSweepChannel.tick, ha]
  · simp [ToneSweepChannel.get_sample, ha]
  · simp [ToneChannel.tick, hb]
  · simp [ToneChannel.get_sample, hb]
  · simp [WaveChannel.tick, hw]
  · simp [WaveChannel.get_sample, hw]
  · simp [NoiseChannel.tick, hn]
  · simp [NoiseChannel.get_sample, hn]

/-- C9 witness: the default-constructed channels are disabled; ticking
them by 8 cycles changes nothing and they sample 0. -/
theorem c9_disabled_channels_inert_witness :
    ToneSweepChannel.init.tick 8 = ToneSweepChannel.init ∧
    ToneSweepChannel.init.get_sample = 0 ∧
    ToneChannel.init.tick 8 = ToneChannel.init ∧
    ToneChannel.init.get_sample = 0 ∧
    WaveChannel.init.tick 8 = WaveChannel.init ∧
    WaveChannel.init.get_sample = 0 ∧
    NoiseChannel.init.tick 8 = NoiseChannel.init ∧
    NoiseChannel.init.get_sample = 0 :=
  c9_disabled_channels_inert ToneSweepChannel.init ToneChannel.init
    WaveChannel.init NoiseChannel.init 8 8 8 8 rfl rfl rfl rfl

/-- C8 (divergence witness): with BGP = 0xE0 the palette maps pre-palette
index 1 to White, and a behind-BG sprite pixel over such a background
pixel IS drawn — `get_original_color_at` reverse-maps the displayed White
to index 0 — although the claim requires suppression whenever the
pre-palette index is nonzero. -/
theorem c8_behind_bg_uses_displayed_color :
    get_pixel_from_line 0xFF 0x00 0 = GBColor.Color1 ∧
    GBColor.Color1 ≠ GBColor.Color0 ∧
    bg_displayed_color 0xE0 GBColor.Color1 = Color.White ∧
    sprite_pixel_drawn GBColor.Color1 true (bg_displayed_color 0xE0 GBColor.Color1) = true := by
  decide

/-- C5 (divergence witness): from a state with NR52 bit 7 set,
NR50 = 0x77, NR51 = 0x12, writing 0x00 to 0xFF26 disables all four
channels and preserves wave RAM, but leaves NR50 and NR51 (and the other
0xFF10–0xFF25 register state) at their previous values instead of
resetting them to 0. -/
theorem c5_nr52_clear_keeps_registers :
    (audio_enabled_state.write_register 0xFF26 0x00).nr50 = 0x77 ∧
    (audio_enabled_state.write_register 0xFF26 0x00).nr51 = 0x12 ∧
    (audio_enabled_state.write_register 0xFF26 0x00).nr52 = 0x70 ∧
    (audio_enabled_state.write_register 0xFF26 0x00).channel1.enabled = false ∧
    (audio_enabled_state.write_register 0xFF26 0x00).channel2.enabled = false ∧
    (audio_enabled_state.write_register 0xFF26 0x00).channel3.enabled = false ∧
    (audio_enabled_state.write_register 0xFF26 0x00).channel4.enabled = false ∧
    (audio_enabled_state.write_register 0xFF26 0x00).channel1.volume = 10 ∧
    (audio_enabled_state.write_register 0xFF26 0x00).channel3.wave_pattern
      = audio_enabled_state.channel3.wave_pattern := by
  decide

/-- C2 (counterexample): from reset with LCDC bit 7 clear, 80 T-states of
ticking move the mode machine to VRAM-access, and a full scanline of
ticking increments LY to 1 — the mode does not stay at OAM-scan and LY
does not stay 0. -/
theorem c2_lcd_disabled_machine_still_advances :
    (({ video_reset with control_byte := 0x00 } : VideoState).tick 80).current_mode
      = VideoMode.ACCESS_VRAM ∧
    VideoMode.ACCESS_VRAM ≠ VideoMode.ACCESS_OAM ∧
    (((({ video_reset with control_byte := 0x00 } : VideoState).tick 80).tick 172).tick 204).line
      = 1 ∧
    (1 : Nat) ≠ 0 := by
  decide

/-- C2 (amended): while LCDC bit 7 is 0, `Video::tick` performs no
background/window rendering, but it does not hold the mode machine: mode,
LY, the cycle counter, STAT and the interrupt flag all advance exactly as
they would with bit 7 set. -/
theorem c2_lcd_disable_skips_rendering_only (s : VideoState) (c : Nat)
    (h : s.display_enabled = false) :
    (s.tick c).proj
      = (({ s with control_byte := s.control_byte ||| 0x80 } : VideoState).tick c).proj ∧
    (s.tick c).drawn_bg = s.drawn_bg ∧
    (s.tick c).drawn_window = s.drawn_window := by
  refine ⟨?_, (tick_drawn_of_display_disabled s c h).1, (tick_drawn_of_display_disabled s c h).2⟩
  rw [proj_tick, proj_tick]
  rfl

/-- C2 amended witness: the reset state with LCDC = 0 ticked by 80. -/
theorem c2_lcd_disable_skips_rendering_only_witness :
    ((({ video_reset with control_byte := 0x00 } : VideoState)).tick 80).proj
      = ((({ ({ video_reset with control_byte := 0x00 } : VideoState) with
              control_byte := ({ video_reset with control_byte := 0x00 } : VideoState).control_byte ||| 0x80 } : VideoState)).tick 80).proj ∧
    ((({ video_reset with control_byte := 0x00 } : VideoState)).tick 80).drawn_bg
      = ({ video_reset with control_byte := 0x00 } : VideoState).drawn_bg ∧
    ((({ video_reset with control_byte := 0x00 } : VideoState)).tick 80).drawn_window
      = ({ video_reset with control_byte := 0x00 } : VideoState).drawn_window :=
  c2_lcd_disable_skips_rendering_only ({ video_reset with control_byte := 0x00 } : VideoState)
    80 (by decide)

/-- The 11-bit frequency written by `set_frequency_hi_register` is always
at most 2047, so the source's defensive clamp and zero-period guard never
fire on the trigger path. -/
lemma freq_hi_lt (f v : Nat) : (f &&& 0xFF) ||| ((v &&& 0x07) <<< 8) < 2048 := by
  have h1 : f &&& 0xFF < 2 ^ 11 := lt_of_le_of_lt Nat.and_le_right (by norm_num)
  have h2 : (v &&& 0x07) <<< 8 < 2 ^ 11 := by
    rw [Nat.shiftLeft_eq]
    have hv : v &&& 0x07 ≤ 7 := Nat.and_le_right
    calc (v &&& 0x07) * 2 ^ 8 ≤ 7 * 2 ^ 8 := Nat.mul_le_mul_right _ hv
    _ < 2 ^ 11 := by norm_num
  simpa using Nat.or_lt_two_pow h1 h2

/-- Every entry of the noise divisor table is positive. -/
lemma noise_divisor_pos (r : Nat) : 0 < noise_divisors.getD (r &&& 0x07) 0 := by
  have h : r &&& 0x07 < 8 := lt_of_le_of_lt Nat.and_le_right (by norm_num)
  set i := r &&& 0x07 with hi
  interval_cases i <;> simp [noise_divisors]

/-- The noise period `divisor << shift` is never zero. -/
lemma noise_period_pos (r sh : Nat) :
    0 < noise_divisors.getD (r &&& 0x07) 0 <<< (sh &&& 0x0F) := by
  rw [Nat.shiftLeft_eq]
  exact Nat.mul_pos (noise_divisor_pos r) (Nat.two_pow_pos _)

/-- C7: Writing a value with bit 7 set to NRx4 enables the channel,
reloads its period timer from the (just-updated) frequency — or from the
divisor/shift fields for noise — resets the envelope volume to the
initial envelope volume (channels 1, 2, 4), reloads the length counter
only if it was 0 (to 64 for channels 1/2/4 and 256 for channel 3), and
resets the duty position (1/2), wave position (3) or LFSR to 0x7FFF (4). -/
theorem c7_trigger_reloads (a : ToneSweepChannel) (va : Nat) (b : ToneChannel) (vb : Nat)
    (w : WaveChannel) (vw : Nat) (n : NoiseChannel) (vn : Nat)
    (ha : check_bit va 7 = true) (hb : check_bit vb 7 = true)
    (hw : check_bit vw 7 = true) (hn : check_bit vn 7 = true) :
    ((a.set_frequency_hi_register va).enabled = true ∧
     (a.set_frequency_hi_register va).timer
       = (2048 - (a.set_frequency_hi_register va).frequency) * 4 ∧
     (a.set_frequency_hi_register va).volume = a.envelope_initial_volume ∧
     (a.set_frequency_hi_register va).length_counter
       = (if a.length_counter = 0 then 64 else a.length_counter) ∧
     (a.set_frequency_hi_register va).duty_position = 0) ∧
    ((b.set_frequency_hi_register vb).enabled = true ∧
     (b.set_frequency_hi_register vb).timer
       = (2048 - (b.set_frequency_hi_register vb).frequency) * 4 ∧
     (b.set_frequency_hi_register vb).volume = b.envelope_initial_volume ∧
     (b.set_frequency_hi_register vb).length_counter
       = (if b.length_counter = 0 then 64 else b.length_counter) ∧
     (b.set_frequency_hi_register vb).duty_position = 0) ∧
    ((w.set_frequency_hi_register vw).enabled = true ∧
     (w.set_frequency_hi_register vw).timer
       = (2048 - (w.set_frequency_hi_register vw).frequency) * 2 ∧
     (w.set_frequency_hi_register vw).length_counter
       = (if w.length_counter = 0 then 256 else w.length_counter) ∧
     (w.set_frequency_hi_register vw).position = 0) ∧
    ((n.set_counter_register vn).enabled = true ∧
     (n.set_counter_register vn).timer
       = noise_divisors.getD (n.dividing_ratio &&& 0x07) 0 <<< (n.shift_clock_frequency &&& 0x0F) ∧
     (n.set_counter_register vn).volume = n.envelope_initial_volume ∧
     (n.set_counter_register vn).length_counter
       = (if n.length_counter = 0 then 64 else n.length_counter) ∧
     (n.set_counter_register vn).lfsr = 0x7FFF) := by
  refine ⟨?_, ?_, ?_, ?_⟩
  · have hlt := freq_hi_lt a.frequency va
    have h1 : ¬((a.frequency &&& 0xFF) ||| ((va &&& 0x07) <<< 8) > 2047) := by omega
    have h2 : (2048 - ((a.frequency &&& 0xFF) ||| ((va &&& 0x07) <<< 8))) * 4 ≠ 0 := by
      have : (a.frequency &&& 0xFF) ||| ((va &&& 0x07) <<< 8) ≤ 2047 := by omega
      omega
    simp [ToneSweepChannel.set_frequency_hi_register, ha, h1, h2]
  · have hlt := freq_hi_lt b.frequency vb
    have h1 : ¬((b.frequency &&& 0xFF) ||| ((vb &&& 0x07) <<< 8) > 2047) := by omega
    have h2 : (2048 - ((b.frequency &&& 0xFF) ||| ((vb &&& 0x07) <<< 8))) * 4 ≠ 0 := by
      omega
    simp [ToneChannel.set_frequency_hi_register, hb, h1, h2]
  · have hlt := freq_hi_lt w.frequency vw
    have h1 : ¬((w.frequency &&& 0xFF) ||| ((vw &&& 0x07) <<< 8) > 2047) := by omega
    have h2 : (2048 - ((w.frequency &&& 0xFF) ||| ((vw &&& 0x07) <<< 8))) * 2 ≠ 0 := by
      omega
    simp [WaveChannel.set_frequency_hi_register, hw, h1, h2]
  · have hp := noise_period_pos n.dividing_ratio n.shift_clock_frequency
    have h1 : ¬(noise_divisors.getD (n.dividing_ratio &&& 0x07) 0
        <<< (n.shift_clock_frequency &&& 0x0F) = 0) := by omega
    simp only [NoiseChannel.set_counter_register, hn, if_true, eq_self_iff_true]
    rw [if_neg h1]
    refine ⟨?_, ?_, ?_, ?_, ?_⟩ <;> trivial

/-- C7 witness: triggering each freshly-constructed channel with a
bit-7 write (0x87 / 0x87 / 0xC7 / 0x80). -/
theorem c7_trigger_reloads_witness :
    ((ToneSweepChannel.init.set_frequency_hi_register 0x87).enabled = true ∧
     (ToneSweepChannel.init.set_frequency_hi_register 0x87).timer
       = (2048 - (ToneSweepChannel.init.set_frequency_hi_register 0x87).frequency) * 4 ∧
     (ToneSweepChannel.init.set_frequency_hi_register 0x87).volume
       = ToneSweepChannel.init.envelope_initial_volume ∧
     (ToneSweepChannel.init.set_frequency_hi_register 0x87).length_counter
       = (if ToneSweepChannel.init.length_counter = 0 then 64
          else ToneSweepChannel.init.length_counter) ∧
     (ToneSweepChannel.init.set_frequency_hi_register 0x87).duty_position = 0) ∧
    ((ToneChannel.init.set_frequency_hi_register 0x87).enabled = true ∧
     (ToneChannel.init.set_frequency_hi_register 0x87).timer
       = (2048 - (ToneChannel.init.set_frequency_hi_register 0x87).frequency) * 4 ∧
     (ToneChannel.init.set_frequency_hi_register 0x87).volume
       = ToneChannel.init.envelope_initial_volume ∧
     (ToneChannel.init.set_frequency_hi_register 0x87).length_counter
       = (if ToneChannel.init.length_counter = 0 then 64
          else ToneChannel.init.length_counter) ∧
     (ToneChannel.init.set_frequency_hi_register 0x87).duty_position = 0) ∧
    ((WaveChannel.init.set_frequency_hi_register 0xC7).enabled = true ∧
     (WaveChannel.init.set_frequency_hi_register 0xC7).timer
       = (2048 - (WaveChannel.init.set_frequency_hi_register 0xC7).frequency) * 2 ∧
     (WaveChannel.init.set_frequency_hi_register 0xC7).length_counter
       = (if WaveChannel.init.length_counter = 0 then 256
          else WaveChannel.init.length_counter) ∧
     (WaveChannel.init.set_frequency_hi_register 0xC7).position = 0) ∧
    ((NoiseChannel.init.set_counter_register 0x80).enabled = true ∧
     (NoiseChannel.init.set_counter_register 0x80).timer
       = noise_divisors.getD (NoiseChannel.init.dividing_ratio &&& 0x07) 0
           <<< (NoiseChannel.init.shift_clock_frequency &&& 0x0F) ∧
     (NoiseChannel.init.set_counter_register 0x80).volume
       = NoiseChannel.init.envelope_initial_volume ∧
     (NoiseChannel.init.set_counter_register 0x80).length_counter
       = (if NoiseChannel.init.length_counter = 0 then 64
          else NoiseChannel.init.length_counter) ∧
     (NoiseChannel.init.set_counter_register 0x80).lfsr = 0x7FFF) :=
  c7_trigger_reloads ToneSweepChannel.init 0x87 ToneChannel.init 0x87
    WaveChannel.init 0xC7 NoiseChannel.init 0x80
    (by decide) (by decide) (by decide) (by decide)

/-- C6: While NR52 bit 7 is 0, every write to an APU address other than
NR52 (0xFF26) and wave RAM (0xFF30–0xFF3F) leaves the APU state
unchanged, while writes to wave RAM and to NR52 still take effect; and a
read of 0xFF26 returns the master enable in bit 7 and the four live
channel enabled flags in bits 0–3. -/
theorem c6_master_off_write_gating (s s2 : Audio) (a v : Nat)
    (haud : check_bit s.nr52 7 = false) :
    (a ≠ 0xFF26 → ¬(0xFF30 ≤ a ∧ a ≤ 0xFF3F) → s.write_register a v = s) ∧
    (0xFF30 ≤ a → a ≤ 0xFF3F →
      (s.write_register a v).channel3 = s.channel3.set_wave_pattern (a - 0xFF30) v) ∧
    (s.write_register 0xFF26 v).nr52 = (v &&& 0x80) ||| (s.nr52 &&& 0x0F) ||| 0x70 ∧
    check_bit (s2.read_register 0xFF26) 7 = check_bit s2.nr52 7 ∧
    check_bit (s2.read_register 0xFF26) 0 = s2.channel1.enabled ∧
    check_bit (s2.read_register 0xFF26) 1 = s2.channel2.enabled ∧
    check_bit (s2.read_register 0xFF26) 2 = s2.channel3.enabled ∧
    check_bit (s2.read_register 0xFF26) 3 = s2.channel4.enabled := by
  refine ⟨?_, ?_, ?_, ?_⟩
  · intro hne hw
    simp [Audio.write_register, haud, hne, hw]
  · intro h30 h3f
    have hne : a ≠ 0xFF26 := by omega
    simp [Audio.write_register, haud, hne, h30, h3f]
  · simp [Audio.write_register, haud]
  · have hread : s2.read_register 0xFF26 =
        (let v0 := (s2.nr52 &&& 0x80) ||| 0x70
         let v1 := if s2.channel1.enabled then v0 ||| 0x01 else v0
         let v2 := if s2.channel2.enabled then v1 ||| 0x02 else v1
         let v3 := if s2.channel3.enabled then v2 ||| 0x04 else v2
         if s2.channel4.enabled then v3 ||| 0x08 else v3) := by
      simp [Audio.read_register]
    rw [hread]
    have hc : Nat.testBit 128 7 = true ∧ Nat.testBit 112 7 = false ∧ Nat.testBit 8 7 = false ∧
        Nat.testBit 4 7 = false ∧ Nat.testBit 2 7 = false ∧ Nat.testBit 1 7 = false ∧
        Nat.testBit 128 0 = false ∧ Nat.testBit 112 0 = false ∧ Nat.testBit 8 0 = false ∧
        Nat.testBit 4 0 = false ∧ Nat.testBit 2 0 = false ∧ Nat.testBit 1 0 = true ∧
        Nat.testBit 128 1 = false ∧ Nat.testBit 112 1 = false ∧ Nat.testBit 8 1 = false ∧
        Nat.testBit 4 1 = false ∧ Nat.testBit 2 1 = true ∧ Nat.testBit 1 1 = false ∧
        Nat.testBit 128 2 = false ∧ Nat.testBit 112 2 = false ∧ Nat.testBit 8 2 = false ∧
        Nat.testBit 4 2 = true ∧ Nat.testBit 2 2 = false ∧ Nat.testBit 1 2 = false ∧
        Nat.testBit 128 3 = false ∧ Nat.testBit 112 3 = false ∧ Nat.testBit 8 3 = true ∧
        Nat.testBit 4 3 = false ∧ Nat.testBit 2 3 = false ∧ Nat.testBit 1 3 = false := by
      decide
    cases h1 : s2.channel1.enabled <;> cases h2 : s2.channel2.enabled <;>
      cases h3 : s2.channel3.enabled <;> cases h4 : s2.channel4.enabled <;>
      simp [check_bit, Nat.testBit_or, Nat.testBit_and, hc]

/-- C6 witness: with the master disabled, a write to NR12 (0xFF12) is
dropped, a wave RAM write lands, an NR52 write lands, and the NR52 read
mirrors bit 7 and the channel-1 flag. -/
theorem c6_master_off_write_gating_witness :
    audio_master_off_active.write_register 0xFF12 0x55 = audio_master_off_active ∧
    (audio_master_off_active.write_register 0xFF30 0xAB).channel3
      = audio_master_off_active.channel3.set_wave_pattern (0xFF30 - 0xFF30) 0xAB ∧
    (audio_master_off_active.write_register 0xFF26 0x80).nr52
      = (0x80 &&& 0x80) ||| (audio_master_off_active.nr52 &&& 0x0F) ||| 0x70 ∧
    check_bit (audio_enabled_state.read_register 0xFF26) 7
      = check_bit audio_enabled_state.nr52 7 ∧
    check_bit (audio_enabled_state.read_register 0xFF26) 0
      = audio_enabled_state.channel1.enabled :=
  ⟨(c6_master_off_write_gating audio_master_off_active audio_enabled_state 0xFF12 0x55
      (by decide)).1 (by decide) (by decide),
   (c6_master_off_write_gating audio_master_off_active audio_enabled_state 0xFF30 0xAB
      (by decide)).2.1 (by decide) (by decide),
   (c6_master_off_write_gating audio_master_off_active audio_enabled_state 0xFF12 0x80
      (by decide)).2.2.1,
   (c6_master_off_write_gating audio_master_off_active audio_enabled_state 0xFF12 0x80
      (by decide)).2.2.2.1,
   (c6_master_off_write_gating audio_master_off_active audio_enabled_state 0xFF12 0x80
      (by decide)).2.2.2.2.1⟩

/-- `mix_samples` pushes exactly one sample per buffer and touches
nothing else that the sample loop observes. -/
lemma mix_samples_shape (s : Audio) :
    s.mix_samples.left_buffer.length = s.left_buffer.length + 1 ∧
    s.mix_samples.right_buffer.length = s.right_buffer.length + 1 ∧
    s.mix_samples.flushes = s.flushes ∧
    s.mix_samples.sample_counter = s.sample_counter ∧
    s.mix_samples.samples_mixed = s.samples_mixed + 1 ∧
    s.mix_samples.callback_registered = s.callback_registered := by
  unfold Audio.mix_samples
  split <;> simp

/-- With the master enable on, the mixed left sample is exactly the
specification's clamped left mix. -/
lemma mix_samples_left_on (s : Audio) (hm : check_bit s.nr52 7 = true) :
    s.mix_samples.left_buffer = s.left_buffer ++ [spec_clamp (spec_mix_left s)] := by
  unfold Audio.mix_samples
  simp only [hm, Bool.not_true, Bool.false_eq_true, if_false]
  congr 1
  unfold spec_clamp spec_mix_left
  congr 2
  cases hb7 : check_bit s.nr51 7 <;> cases hb6 : check_bit s.nr51 6 <;>
    cases hb5 : check_bit s.nr51 5 <;> cases hb4 : check_bit s.nr51 4 <;>
    simp <;> ring_nf

/-- With the master enable on, the mixed right sample is exactly the
specification's clamped right mix. -/
lemma mix_samples_right_on (s : Audio) (hm : check_bit s.nr52 7 = true) :
    s.mix_samples.right_buffer = s.right_buffer ++ [spec_clamp (spec_mix_right s)] := by
  unfold Audio.mix_samples
  simp only [hm, Bool.not_true, Bool.false_eq_true, if_false]
  congr 1
  unfold spec_clamp spec_mix_right
  congr 2
  cases hb3 : check_bit s.nr51 3 <;> cases hb2 : check_bit s.nr51 2 <;>
    cases hb1 : check_bit s.nr51 1 <;> cases hb0 : check_bit s.nr51 0 <;>
    simp <;> ring_nf

/-- With the master enable off, `mix_samples` pushes silence. -/
lemma mix_samples_off (s : Audio) (hm : check_bit s.nr52 7 = false) :
    s.mix_samples.left_buffer = s.left_buffer ++ [0] ∧
    s.mix_samples.right_buffer = s.right_buffer ++ [0] := by
  unfold Audio.mix_samples
  simp [hm]

/-- Every sample `mix_samples` pushes lies in [-1, 1]: the enabled branch
clamps, the disabled branch pushes 0. -/
lemma mix_samples_range (s : Audio)
    (hl : ∀ x ∈ s.left_buffer, -1 ≤ x ∧ x ≤ 1)
    (hr : ∀ x ∈ s.right_buffer, -1 ≤ x ∧ x ≤ 1) :
    (∀ x ∈ s.mix_samples.left_buffer, -1 ≤ x ∧ x ≤ 1) ∧
    (∀ x ∈ s.mix_samples.right_buffer, -1 ≤ x ∧ x ≤ 1) := by
  have hclamp : ∀ y : ℚ, -1 ≤ max (-1) (min 1 y) ∧ max (-1) (min 1 y) ≤ 1 := by
    intro y
    refine ⟨le_max_left _ _, max_le (by norm_num) (min_le_left _ _)⟩
  constructor <;> intro x hx
  · rcases h : check_bit s.nr52 7 with _ | _
    · rcases (List.mem_append.mp ((mix_samples_off s h).1 ▸ hx)) with h1 | h1
      · exact hl x h1
      · simp only [List.mem_singleton] at h1
        subst h1
        norm_num
    · rcases (List.mem_append.mp ((mix_samples_left_on s h) ▸ hx)) with h1 | h1
      · exact hl x h1
      · simp only [List.mem_singleton] at h1
        subst h1
        exact hclamp _
  · rcases h : check_bit s.nr52 7 with _ | _
    · rcases (List.mem_append.mp ((mix_samples_off s h).2 ▸ hx)) with h1 | h1
      · exact hr x h1
      · simp only [List.mem_singleton] at h1
        subst h1
        norm_num
    · rcases (List.mem_append.mp ((mix_samples_right_on s h) ▸ hx)) with h1 | h1
      · exact hr x h1
      · simp only [List.mem_singleton] at h1
        subst h1
        exact hclamp _

/-- The flush step never touches the sample counter, the mix count or the
callback registration. -/
lemma flush_if_full_shape (s : Audio) :
    s.flush_if_full.sample_counter = s.sample_counter ∧
    s.flush_if_full.samples_mixed = s.samples_mixed ∧
    s.flush_if_full.callback_registered = s.callback_registered := by
  unfold Audio.flush_if_full
  split
  · split <;> exact ⟨rfl, rfl, rfl⟩
  · exact ⟨rfl, rfl, rfl⟩

/-- The flush step preserves equal buffer lengths and the equal-length
property of every emitted pair: it either leaves the buffers alone or
emits the (equal-length) pair and clears both. -/
lemma flush_if_full_inv (s : Audio)
    (h1 : s.left_buffer.length = s.right_buffer.length)
    (h2 : ∀ p ∈ s.flushes, p.1.length = p.2.length) :
    s.flush_if_full.left_buffer.length = s.flush_if_full.right_buffer.length ∧
    (∀ p ∈ s.flush_if_full.flushes, p.1.length = p.2.length) := by
  unfold Audio.flush_if_full
  split
  · split
    · refine ⟨rfl, ?_⟩
      intro p hp
      rcases List.mem_append.mp hp with h | h
      · exact h2 p h
      · simp only [List.mem_singleton] at h
        subst h
        exact h1
    · exact ⟨rfl, h2⟩
  · exact ⟨h1, h2⟩

/-- The flush step preserves the in-range property of the buffers and of
every emitted pair. -/
lemma flush_if_full_range (s : Audio)
    (hl : ∀ x ∈ s.left_buffer, -1 ≤ x ∧ x ≤ 1)
    (hr : ∀ x ∈ s.right_buffer, -1 ≤ x ∧ x ≤ 1)
    (hf : ∀ p ∈ s.flushes, (∀ x ∈ p.1, -1 ≤ x ∧ x ≤ 1) ∧ (∀ x ∈ p.2, -1 ≤ x ∧ x ≤ 1)) :
    (∀ x ∈ s.flush_if_full.left_buffer, -1 ≤ x ∧ x ≤ 1) ∧
    (∀ x ∈ s.flush_if_full.right_buffer, -1 ≤ x ∧ x ≤ 1) ∧
    (∀ p ∈ s.flush_if_full.flushes,
      (∀ x ∈ p.1, -1 ≤ x ∧ x ≤ 1) ∧ (∀ x ∈ p.2, -1 ≤ x ∧ x ≤ 1)) := by
  unfold Audio.flush_if_full
  split
  · split
    · refine ⟨by simp, by simp, ?_⟩
      intro p hp
      rcases List.mem_append.mp hp with h | h
      · exact hf p h
      · simp only [List.mem_singleton] at h
        subst h
        exact ⟨hl, hr⟩
    · exact ⟨by simp, by simp, hf⟩
  · exact ⟨hl, hr, hf⟩

/-- Across the whole sample loop: each of the `n` iterations consumes
`CYCLES_PER_SAMPLE` T-states from the counter and mixes exactly one
sample. -/
lemma sample_loop_shape (n : Nat) : ∀ s : Audio,
    (Audio.sample_loop n s).sample_counter
      = s.sample_counter - n * CYCLES_PER_SAMPLE ∧
    (Audio.sample_loop n s).samples_mixed = s.samples_mixed + n ∧
    (Audio.sample_loop n s).callback_registered = s.callback_registered := by
  induction n with
  | zero => intro s; exact ⟨by simp [Audio.sample_loop], by simp [Audio.sample_loop], rfl⟩
  | succ n ih =>
    intro s
    rw [Audio.sample_loop]
    obtain ⟨ihc, ihm, ihcb⟩ :=
      ih ({ s with sample_counter := s.sample_counter - CYCLES_PER_SAMPLE } : Audio).mix_samples.flush_if_full
    obtain ⟨_, _, _, hmc, hmm, hmcb⟩ :=
      mix_samples_shape ({ s with sample_counter := s.sample_counter - CYCLES_PER_SAMPLE } : Audio)
    obtain ⟨hfc, hfm, hfcb⟩ :=
      flush_if_full_shape ({ s with sample_counter := s.sample_counter - CYCLES_PER_SAMPLE } : Audio).mix_samples
    have hpc : ({ s with sample_counter := s.sample_counter - CYCLES_PER_SAMPLE } : Audio).sample_counter
        = s.sample_counter - CYCLES_PER_SAMPLE := rfl
    have hpm : ({ s with sample_counter := s.sample_counter - CYCLES_PER_SAMPLE } : Audio).samples_mixed
        = s.samples_mixed := rfl
    refine ⟨?_, ?_, ?_⟩
    · rw [ihc, hfc, hmc, hpc]
      rw [show CYCLES_PER_SAMPLE = 95 from rfl]
      omega
    · rw [ihm, hfm, hmm, hpm]
      omega
    · rw [ihcb, hfcb, hmcb]

/-- Across the whole sample loop: equal buffer lengths, and equal lengths
in every emitted pair, are preserved. -/
lemma sample_loop_inv (n : Nat) : ∀ s : Audio,
    s.left_buffer.length = s.right_buffer.length →
    (∀ p ∈ s.flushes, p.1.length = p.2.length) →
    (Audio.sample_loop n s).left_buffer.length
      = (Audio.sample_loop n s).right_buffer.length ∧
    (∀ p ∈ (Audio.sample_loop n s).flushes, p.1.length = p.2.length) := by
  induction n with
  | zero => intro s h1 h2; exact ⟨h1, h2⟩
  | succ n ih =>
    intro s h1 h2
    rw [Audio.sample_loop]
    set s0 := ({ s with sample_counter := s.sample_counter - CYCLES_PER_SAMPLE } : Audio) with hs0
    obtain ⟨hml, hmr, hmf, _, _, _⟩ := mix_samples_shape s0
    have h1m : s0.mix_samples.left_buffer.length = s0.mix_samples.right_buffer.length := by
      rw [hml, hmr]
      exact congrArg (fun t => t + 1) h1
    have h2m : ∀ p ∈ s0.mix_samples.flushes, p.1.length = p.2.length := by
      rw [hmf]
      exact h2
    obtain ⟨hfl, hff⟩ := flush_if_full_inv s0.mix_samples h1m h2m
    exact ih _ hfl hff

/-- Across the whole sample loop: every buffer element and every element
of every emitted pair stays in [-1, 1]. -/
lemma sample_loop_range (n : Nat) : ∀ s : Audio,
    (∀ x ∈ s.left_buffer, -1 ≤ x ∧ x ≤ 1) →
    (∀ x ∈ s.right_buffer, -1 ≤ x ∧ x ≤ 1) →
    (∀ p ∈ s.flushes, (∀ x ∈ p.1, -1 ≤ x ∧ x ≤ 1) ∧ (∀ x ∈ p.2, -1 ≤ x ∧ x ≤ 1)) →
    (∀ x ∈ (Audio.sample_loop n s).left_buffer, -1 ≤ x ∧ x ≤ 1) ∧
    (∀ x ∈ (Audio.sample_loop n s).right_buffer, -1 ≤ x ∧ x ≤ 1) ∧
    (∀ p ∈ (Audio.sample_loop n s).flushes,
      (∀ x ∈ p.1, -1 ≤ x ∧ x ≤ 1) ∧ (∀ x ∈ p.2, -1 ≤ x ∧ x ≤ 1)) := by
  induction n with
  | zero => intro s hl hr hf; exact ⟨hl, hr, hf⟩
  | succ n ih =>
    intro s hl hr hf
    rw [Audio.sample_loop]
    set s0 := ({ s with sample_counter := s.sample_counter - CYCLES_PER_SAMPLE } : Audio) with hs0
    obtain ⟨hml, hmr⟩ := mix_samples_range s0 hl hr
    have hmf : ∀ p ∈ s0.mix_samples.flushes,
        (∀ x ∈ p.1, -1 ≤ x ∧ x ≤ 1) ∧ (∀ x ∈ p.2, -1 ≤ x ∧ x ≤ 1) := by
      rw [(mix_samples_shape s0).2.2.1]
      exact hf
    obtain ⟨h1, h2, h3⟩ := flush_if_full_range s0.mix_samples hml hmr hmf
    exact ih _ h1 h2 h3

/-- C10: `Audio::tick` keeps the left and right sample buffers at equal
lengths (each mixed sample pushes one value onto each, including the
silence case, and a flush clears both together), and every buffer pair
handed to the host audio callback has equal lengths. -/
theorem c10_buffers_stay_paired (s : Audio) (c : Nat)
    (h1 : s.left_buffer.length = s.right_buffer.length)
    (h2 : ∀ p ∈ s.flushes, p.1.length = p.2.length) :
    (s.tick c).left_buffer.length = (s.tick c).right_buffer.length ∧
    (∀ p ∈ (s.tick c).flushes, p.1.length = p.2.length) := by
  unfold Audio.tick
  exact sample_loop_inv _ _ h1 h2

/-- C10 witness: ticking the freshly-constructed enabled state by 95
T-states. -/
theorem c10_buffers_stay_paired_witness :
    (audio_enabled_state.tick 95).left_buffer.length
      = (audio_enabled_state.tick 95).right_buffer.length ∧
    (∀ p ∈ (audio_enabled_state.tick 95).flushes, p.1.length = p.2.length) :=
  c10_buffers_stay_paired audio_enabled_state 95 rfl (by simp [audio_enabled_state, audio_init])

/-- C4 (amended): a stereo sample is produced once per
`CYCLES_PER_SAMPLE` = 95 = ⌊4194304 / 44100⌋ T-states; while the master
enable is set, each sample is the specification's mix (per-side NR51 sum,
NR50 volume over 7, divided by 4, clamped to [-1, 1]); while the master
enable is clear the mixer pushes 0 instead; a full (≥ 1024) buffer is
flushed by handing both buffers to the registered callback and clearing
them; and every buffer element and every flushed sample lies in [-1, 1]. -/
theorem c4_sample_mixing (s : Audio) (c : Nat)
    (hl : ∀ x ∈ s.left_buffer, -1 ≤ x ∧ x ≤ 1)
    (hr : ∀ x ∈ s.right_buffer, -1 ≤ x ∧ x ≤ 1)
    (hf : ∀ p ∈ s.flushes, (∀ x ∈ p.1, -1 ≤ x ∧ x ≤ 1) ∧ (∀ x ∈ p.2, -1 ≤ x ∧ x ≤ 1)) :
    CYCLES_PER_SAMPLE = 95 ∧
    CYCLES_PER_SAMPLE = CLOCK_RATE / 44100 ∧
    (s.tick c).sample_counter = (s.sample_counter + c) % CYCLES_PER_SAMPLE ∧
    (s.tick c).samples_mixed = s.samples_mixed + (s.sample_counter + c) / CYCLES_PER_SAMPLE ∧
    (check_bit s.nr52 7 = true →
      s.mix_samples.left_buffer = s.left_buffer ++ [spec_clamp (spec_mix_left s)] ∧
      s.mix_samples.right_buffer = s.right_buffer ++ [spec_clamp (spec_mix_right s)]) ∧
    (check_bit s.nr52 7 = false →
      s.mix_samples.left_buffer = s.left_buffer ++ [0] ∧
      s.mix_samples.right_buffer = s.right_buffer ++ [0]) ∧
    (1024 ≤ s.left_buffer.length →
      s.flush_if_full.left_buffer = [] ∧ s.flush_if_full.right_buffer = [] ∧
      (s.callback_registered = true →
        s.flush_if_full.flushes = s.flushes ++ [(s.left_buffer, s.right_buffer)])) ∧
    (∀ x ∈ (s.tick c).left_buffer, -1 ≤ x ∧ x ≤ 1) ∧
    (∀ x ∈ (s.tick c).right_buffer, -1 ≤ x ∧ x ≤ 1) ∧
    (∀ p ∈ (s.tick c).flushes,
      (∀ x ∈ p.1, -1 ≤ x ∧ x ≤ 1) ∧ (∀ x ∈ p.2, -1 ≤ x ∧ x ≤ 1)) := by
  have hcounter : (s.tick c).sample_counter = (s.sample_counter + c) % CYCLES_PER_SAMPLE := by
    unfold Audio.tick
    rw [(sample_loop_shape _ _).1]
    rw [show CYCLES_PER_SAMPLE = 95 from rfl]
    show s.sample_counter + c - (s.sample_counter + c) / 95 * 95 = (s.sample_counter + c) % 95
    omega
  have hmixed : (s.tick c).samples_mixed
      = s.samples_mixed + (s.sample_counter + c) / CYCLES_PER_SAMPLE := by
    unfold Audio.tick
    rw [(sample_loop_shape _ _).2.1]
  have hrange : (∀ x ∈ (s.tick c).left_buffer, -1 ≤ x ∧ x ≤ 1) ∧
      (∀ x ∈ (s.tick c).right_buffer, -1 ≤ x ∧ x ≤ 1) ∧
      (∀ p ∈ (s.tick c).flushes,
        (∀ x ∈ p.1, -1 ≤ x ∧ x ≤ 1) ∧ (∀ x ∈ p.2, -1 ≤ x ∧ x ≤ 1)) := by
    unfold Audio.tick
    exact sample_loop_range _ _ hl hr hf
  refine ⟨rfl, rfl, hcounter, hmixed, ?_, ?_, ?_, hrange.1, hrange.2.1, hrange.2.2⟩
  · intro hm
    exact ⟨mix_samples_left_on s hm, mix_samples_right_on s hm⟩
  · intro hm
    exact mix_samples_off s hm
  · intro hfull
    unfold Audio.flush_if_full
    rw [if_pos hfull]
    refine ⟨?_, ?_, ?_⟩
    · split <;> rfl
    · split <;> rfl
    · intro hcb
      simp [hcb]

/-- C4 witness: ticking the enabled state by 95 T-states produces exactly
one sample and leaves the stated counter residue. -/
theorem c4_sample_mixing_witness :
    (audio_enabled_state.tick 95).sample_counter
      = (audio_enabled_state.sample_counter + 95) % CYCLES_PER_SAMPLE ∧
    (audio_enabled_state.tick 95).samples_mixed
      = audio_enabled_state.samples_mixed
          + (audio_enabled_state.sample_counter + 95) / CYCLES_PER_SAMPLE :=
  ⟨(c4_sample_mixing audio_enabled_state 95 (by simp [audio_enabled_state, audio_init])
      (by simp [audio_enabled_state, audio_init])
      (by simp [audio_enabled_state, audio_init])).2.2.1,
   (c4_sample_mixing audio_enabled_state 95 (by simp [audio_enabled_state, audio_init])
      (by simp [audio_enabled_state, audio_init])
      (by simp [audio_enabled_state, audio_init])).2.2.2.1⟩

/-- C4 (counterexample to the claim as stated): in a state whose master
enable is clear but whose channel 1 is enabled at full volume with NR50 =
0x77 and NR51 = 0xFF, the mixer pushes 0 while the claimed mixing formula
yields 1/4: the claim's "for every APU state" description of the sample
value fails on the master-off silence branch. -/
theorem c4_mix_is_not_spec_mix_when_off :
    audio_master_off_active.mix_samples.left_buffer = [(0 : ℚ)] ∧
    spec_clamp (spec_mix_left audio_master_off_active) = 1 / 4 ∧
    (0 : ℚ) ≠ 1 / 4 := by
  refine ⟨by decide, ?_, by norm_num⟩
  have h1 : audio_master_off_active.channel1.get_sample = 1 := by
    norm_num [ToneSweepChannel.get_sample, audio_master_off_active, audio_init,
      ToneSweepChannel.init, duty_patterns]
  have h2 : audio_master_off_active.channel2.get_sample = 0 := by
    norm_num [ToneChannel.get_sample, audio_master_off_active, audio_init, ToneChannel.init]
  have h3 : audio_master_off_active.channel3.get_sample = 0 := by
    norm_num [WaveChannel.get_sample, audio_master_off_active, audio_init, WaveChannel.init]
  have h4 : audio_master_off_active.channel4.get_sample = 0 := by
    norm_num [NoiseChannel.get_sample, audio_master_off_active, audio_init, NoiseChannel.init]
  have hb : check_bit 0xFF 4 = true ∧ check_bit 0xFF 5 = true ∧
      check_bit 0xFF 6 = true ∧ check_bit 0xFF 7 = true := by decide
  have hv : ((0x77 >>> 4) &&& 7 : Nat) = 7 := by decide
  have hn51 : audio_master_off_active.nr51 = 0xFF := rfl
  have hn50 : audio_master_off_active.nr50 = 0x77 := rfl
  have hmix : spec_mix_left audio_master_off_active = 1 / 4 := by
    unfold spec_mix_left
    rw [hn51, hn50, hb.1, hb.2.1, hb.2.2.1, hb.2.2.2, h1, h2, h3, h4, hv]
    norm_num
  unfold spec_clamp
  rw [hmix, min_eq_right (by norm_num), max_eq_right (by norm_num)]

/-- C1: Driving the PPU from reset in 4 T-state ticks (the granularity of
the CPU's machine cycles), each frame consists, per visible scanline, of
exactly 80 T-states of OAM-scan, then 172 of VRAM-access, then 204 of
HBlank; after the 144 visible scanlines the machine stays in VBlank for
10 scanlines of 456 T-states each (4560 T-states); the frame totals
70224 T-states (= 17556 ticks), after which the machine state is back at
the start-of-frame configuration; and interrupt-flag bit 0 is set exactly
from the HBlank-to-VBlank transition (when LY reaches 144, at T-state
65664) onward. -/
theorem c1_ppu_frame_timing :
    (∀ k, k < 17556 →
      (run_ticks k video_reset).current_mode = expected_mode (4 * k) ∧
      (run_ticks k video_reset).line = expected_line (4 * k) ∧
      (run_ticks k video_reset).cycle_counter = expected_counter (4 * k) ∧
      check_bit (run_ticks k video_reset).interrupt_flag 0 = decide (65664 ≤ 4 * k)) ∧
    (run_ticks 17556 video_reset).proj =
      { current_mode := VideoMode.ACCESS_OAM, cycle_counter := 0, line := 0,
        ly_compare := 0, lcd_status := 2, interrupt_flag := 1, frames := 1 } := by
  have hrm := run_eq_mstate step_ok_all
  constructor
  · intro k hk
    have hproj : (run_ticks k video_reset).proj = mstate_of (4 * k) := by
      rw [proj_run_ticks]
      exact hrm k (by omega)
    have ht : 4 * k < 70224 := by omega
    have hms : mstate_of (4 * k) =
        { current_mode := expected_mode (4 * k), cycle_counter := expected_counter (4 * k),
          line := expected_line (4 * k), ly_compare := 0, lcd_status := expected_status (4 * k),
          interrupt_flag := if 65664 ≤ 4 * k then 1 else 0, frames := 0 } := by
      unfold mstate_of
      rw [if_pos ht]
    rw [hms] at hproj
    refine ⟨congrArg MachineState.current_mode hproj, congrArg MachineState.line hproj,
      congrArg MachineState.cycle_counter hproj, ?_⟩
    have hif : (run_ticks k video_reset).interrupt_flag
        = (if 65664 ≤ 4 * k then 1 else 0) := congrArg MachineState.interrupt_flag hproj
    rw [check_bit, hif]
    by_cases h65 : 65664 ≤ 4 * k
    · rw [if_pos h65, decide_eq_true h65]
      decide
    · rw [if_neg h65, decide_eq_false h65]
      decide
  · rw [proj_run_ticks, hrm 17556 le_rfl]
    decide

/-- C1 witness: the 100th tick (T-state 400) of the frame, inside line
0's HBlank. -/
theorem c1_ppu_frame_timing_witness :
    (run_ticks 100 video_reset).current_mode = expected_mode (4 * 100) ∧
    (run_ticks 100 video_reset).line = expected_line (4 * 100) ∧
    (run_ticks 100 video_reset).cycle_counter = expected_counter (4 * 100) ∧
    check_bit (run_ticks 100 video_reset).interrupt_flag 0 = decide (65664 ≤ 4 * 100) :=
  c1_ppu_frame_timing.1 100 (by norm_num)
